import Mathlib

/-!
# EzEngine: the `EZ::Program` orchestrator

A shallow embedding of `src/EZProgram.cpp` (message routing, constructor, run
loop, destructor and the window thread's lambda) together with the settings
structures of `src/EZWindow.h`.

* Sequential code is embedded as functions: `CustomWndProc`, `Program.ctor`
  (the constructor), `Run`.
* The two execution contexts (the owning context and the window thread) are
  embedded as one interleaving step function `step` over program counters that
  name source lines; shared fields are read and written one access per step.
* Calls into collaborators whose code is not part of this file (Renderer,
  Profiler, user callbacks, Win32) are recorded as events of a trace.
-/

namespace EZ

/-! ## Win32 scalars -/

abbrev HWND := Nat
abbrev UINT := Nat
abbrev WPARAM := Nat
/-- LPARAM is a signed pointer-sized integer (`LONG_PTR`). -/
abbrev LPARAM := Int
abbrev LRESULT := Int
/-- BOOL is `int`; any non-zero value is truthy, `TRUE` is exactly 1. -/
abbrev BOOL := Int
/-- LPCWSTR: a null pointer or a wide string. -/
abbrev LPCWSTR := Option String

def TRUE : BOOL := 1
def FALSE : BOOL := 0
def WM_SIZE : UINT := 0x0005
def WM_CLOSE : UINT := 0x0010

/-- The bit pattern of a pointer-sized signed value, `(DWORD_PTR)(l)`, on a 64-bit target. -/
def toDWORD_PTR (l : Int) : Nat := (l % 2 ^ 64).toNat

/-- Win32 `LOWORD(l)`: `((WORD)(((DWORD_PTR)(l)) & 0xffff))`. -/
def LOWORD (l : LPARAM) : Nat := toDWORD_PTR l &&& 0xffff

/-- Win32 `HIWORD(l)`: `((WORD)((((DWORD_PTR)(l)) >> 16) & 0xffff))`. -/
def HIWORD (l : LPARAM) : Nat := (toDWORD_PTR l >>> 16) &&& 0xffff

/-- Conversion of a `LONG` difference to `UINT32` (the implicit conversion at line 125). -/
def toUINT32 (i : Int) : Nat := (i % 2 ^ 32).toNat

structure D2D1_SIZE_U where
  width : Nat
  height : Nat
deriving DecidableEq, Repr

/-- The helper `D2D1::SizeU(width, height)`. -/
def SizeU (width height : Nat) : D2D1_SIZE_U := ⟨width, height⟩

structure RECT where
  left : Int
  top : Int
  right : Int
  bottom : Int
deriving DecidableEq, Repr

/-- The value stored in `ClassSettings.WndProc`: null, the routine `CustomWndProc` of this
file, or some other routine identified by its address. -/
inductive WNDPROC
  | null
  | CustomWndProc
  | other (addr : Nat)
deriving DecidableEq, Repr

/-! ## Settings (`src/EZWindow.h`) -/

structure ClassSettings where
  Name : LPCWSTR
  WndProc : WNDPROC
  Icon : Nat
  Cursor : Nat
  CustomBackPaint : BOOL
  BackColorR : Nat
  BackColorG : Nat
  BackColorB : Nat
  Styles : Nat
  DontRedrawOnSize : BOOL
  UniversalDropShadow : BOOL
  IgnoreDoubleClicks : BOOL
  NoCloseOption : BOOL
  SaveClippedGraphics : BOOL
  ThisThreadOnly : BOOL
deriving DecidableEq, Repr

inductive WindowStylePreset
  | Normal
  | Popup
  | Boarderless
  | DontTouchMyStyles
deriving DecidableEq, Repr

structure WindowSettings where
  Title : LPCWSTR
  ClassName : LPCWSTR
  InitialX : Int
  InitialY : Int
  InitialWidth : Int
  InitialHeight : Int
  Styles : Nat
  ExtendedStyles : Nat
  StylePreset : WindowStylePreset
  LaunchHidden : BOOL
  DragNDropFiles : BOOL
  IgnoreFocusSwitch : BOOL
  TopMost : BOOL
  HideInTaskbar : BOOL
deriving DecidableEq, Repr

/-! ## Declarations of `EZProgram.h` -/

/-- Modelled from the spec: `EZ::Program::State` is declared in EZProgram.h, which is not among
the sources; the four values are the ones `EZProgram.cpp` assigns and compares. -/
inductive State
  | Created
  | Running
  | Closed
  | Destroyed
deriving DecidableEq, Repr

/-- Modelled from the spec: the order `Created < Running < Closed < Destroyed` of section 4.1. -/
def State.rank : State → Nat
  | .Created => 0
  | .Running => 1
  | .Closed => 2
  | .Destroyed => 3

/-- A native message as handed to a window procedure. -/
structure Msg where
  hwnd : HWND
  uMsg : UINT
  wParam : WPARAM
  lParam : LPARAM
deriving DecidableEq, Repr

/-- Modelled from the spec: `EZ::ProgramSettings` is declared in EZProgram.h, which is not among
the sources; these are the fields `EZProgram.cpp` reads. `UpdateCallback` is a routine
address (its body is user code), `WndProcCallback` the user routine's result as a function
of the message; the `Program*` both receive is always the owning instance. -/
structure ProgramSettings where
  UpdateCallback : Option Nat
  WndProcCallback : Option (HWND → UINT → WPARAM → LPARAM → LRESULT)
  IgnoreWMClose : Bool
  DontResizeBuffer : Bool
  DontLogPreformace : Bool
  PreformanceLogInterval : Nat

/-- Modelled from the spec: `EZ::RendererSettings` is declared outside the sources; it is only
copied. -/
structure RendererSettings where
  raw : Nat
deriving DecidableEq, Repr

/-- A Profiler object, identified by the interval it was created with. -/
structure Profiler where
  interval : Nat
deriving DecidableEq, Repr

/-- A Renderer object, identified by the window handle and settings it was created with. -/
structure Renderer where
  hwnd : HWND
  settings : RendererSettings
deriving DecidableEq, Repr

/-- A Window object, identified by its handle (`Window::GetHandle`). -/
structure Window where
  handle : HWND
deriving DecidableEq, Repr

/-- The fields of `EZ::Program` that `EZProgram.cpp` assigns. -/
structure Program where
  _state : State
  _newSize : D2D1_SIZE_U
  _resizeRequested : Bool
  _profiler : Option Profiler
  _renderer : Option Renderer
  _window : Option Window
  _programSettings : ProgramSettings
  _classSettings : ClassSettings
  _windowSettings : WindowSettings
  _rendererSettings : RendererSettings

/-- An `EZ::Error`: a message with an optional source line, or an OS error code with the line
that wrapped it (`Error::ThrowFromCode`), or an error raised inside a collaborator. -/
inductive Error
  | msg (text : String) (line : Option Nat)
  | fromCode (code : Nat) (line : Nat)
  | collaborator
deriving DecidableEq, Repr

/-- The Win32 routines the code calls; their implementation is the operating system's. -/
structure Win32 where
  DefWindowProc : HWND → UINT → WPARAM → LPARAM → LRESULT
  lstrcmp : LPCWSTR → LPCWSTR → Int

/-! ## Message routing: `EZ::Program::CustomWndProc` (lines 3-29) -/

/-- Which routine produced the value a window procedure returned. -/
inductive Via
  | DefWindowProc
  | WndProcCallback
  | swallowed
deriving DecidableEq, Repr

/-- What `CustomWndProc` hands back: the result and the routine that computed it. -/
structure Outcome where
  via : Via
  result : LRESULT
deriving DecidableEq, Repr

/-- Lines 16-18: the size a size-change message carries. -/
def sizeOfLParam (lParam : LPARAM) : D2D1_SIZE_U := SizeU (LOWORD lParam) (HIWORD lParam)

/-- Lines 23-28: delegate to the user callback when one is configured and the Program is
running, else default handling. -/
def CustomWndProc.route (w : Win32) (program : Program) (m : Msg) : Outcome :=
  match program._programSettings.WndProcCallback with
  | some cb =>
    if program._state = State.Running then
      ⟨Via.WndProcCallback, cb m.hwnd m.uMsg m.wParam m.lParam⟩
    else
      ⟨Via.DefWindowProc, w.DefWindowProc m.hwnd m.uMsg m.wParam m.lParam⟩
  | none => ⟨Via.DefWindowProc, w.DefWindowProc m.hwnd m.uMsg m.wParam m.lParam⟩

/-- The writes the owning context makes to the shared object. -/
inductive OwnerWrite
  /-- Line 134. -/
  | setRunning
  /-- Line 139. -/
  | clearResize
  /-- Line 154. -/
  | setDestroyed
deriving DecidableEq, Repr

def OwnerWrite.apply : OwnerWrite → Program → Program
  | .setRunning, p => { p with _state := State.Running }
  | .clearResize, p => { p with _resizeRequested := false }
  | .setDestroyed, p => { p with _state := State.Destroyed }

def applyOwnerWrites (ws : List OwnerWrite) (p : Program) : Program :=
  ws.foldl (fun q x => x.apply q) p

/-- The writes the window thread makes to the shared object. -/
inductive WtWrite
  /-- Line 18. -/
  | newSize (lParam : LPARAM)
  /-- Line 19. -/
  | requestResize
  /-- Line 106. -/
  | setClosed
deriving DecidableEq, Repr

def WtWrite.apply : WtWrite → Program → Program
  | .newSize lParam, p => { p with _newSize := sizeOfLParam lParam }
  | .requestResize, p => { p with _resizeRequested := true }
  | .setClosed, p => { p with _state := State.Closed }

def applyWtWrites (ws : List WtWrite) (p : Program) : Program :=
  ws.foldl (fun q x => x.apply q) p

/-- Line 20, `while (program->_resizeRequested) {}`: poll the shared flag; `owner k` lists the
writes of the owning context between poll `k` and the next one. The result is the object as
seen by the poll that finds the flag clear, `none` when `fuel` polls all find it set. -/
def spinWhileResizeRequested (owner : Nat → List OwnerWrite) :
    Nat → Nat → Program → Option Program
  | 0, _, _ => none
  | fuel + 1, k, p =>
    if p._resizeRequested = true then
      spinWhileResizeRequested owner fuel (k + 1) (applyOwnerWrites (owner k) p)
    else some p

/-- The shared object `n` polls after poll `k` saw it as `p`. -/
def polledFrom (owner : Nat → List OwnerWrite) : Nat → Program → Nat → Program
  | _, p, 0 => p
  | k, p, n + 1 => polledFrom owner (k + 1) (applyOwnerWrites (owner k) p) n

/-- The window procedure. `userData` is `GetWindowLongPtr(hwnd, GWLP_USERDATA)`: the Program
associated with the window, if any. Returns the outcome and the Program as the routine left
it, or `none` when the spin of line 20 is still polling after `fuel` polls. -/
def CustomWndProc (w : Win32) (owner : Nat → List OwnerWrite) (fuel : Nat)
    (userData : Option Program) (m : Msg) : Option (Outcome × Option Program) :=
  match userData with
  | none => some (⟨Via.DefWindowProc, w.DefWindowProc m.hwnd m.uMsg m.wParam m.lParam⟩, none)
  | some program =>
    if m.uMsg = WM_CLOSE ∧ program._programSettings.IgnoreWMClose = true then
      some (⟨Via.swallowed, 0⟩, some program)
    else if m.uMsg = WM_SIZE ∧ program._programSettings.DontResizeBuffer = false then
      let p1 := { program with _newSize := sizeOfLParam m.lParam }
      let p2 := { p1 with _resizeRequested := true }
      match spinWhileResizeRequested owner fuel 0 p2 with
      | none => none
      | some p3 => some (CustomWndProc.route w p3 m, some p3)
    else
      some (CustomWndProc.route w program m, some program)

/-! ## Construction: `EZ::Program::Program` (lines 31-128) -/

/-- The effects of the constructor, in the order it performs them. -/
inductive CtorEvent
  | newProfiler (interval : Nat)
  | spawnWindowThread (classSettings : ClassSettings) (windowSettings : WindowSettings)
  | newRenderer (hwnd : HWND) (settings : RendererSettings)
  | Resize (size : D2D1_SIZE_U)
deriving DecidableEq, Repr

/-- What the constructor depends on outside its arguments: the Window the window thread
stores into `_window` at line 89 (`none` when the window thread fails first, so that line 112
ends the process while line 116 is still polling), and the result of `GetWindowRect` (an
error carries `GetLastError()`). -/
structure CtorEnv where
  window : Option Window
  GetWindowRect : HWND → Except Nat RECT

inductive CtorResult
  | raised (e : Error)
  | built (p : Program)
  | processExit

/-- The constructor `EZ::Program::Program`. The first component lists the effects performed before it raised,
returned or the process ended. -/
def Program.ctor (w : Win32) (env : CtorEnv) (programSettings : ProgramSettings)
    (classSettings : ClassSettings) (windowSettings : WindowSettings)
    (rendererSettings : RendererSettings) : List CtorEvent × CtorResult :=
  if classSettings.WndProc ≠ WNDPROC.null then
    ([], .raised (.msg
      "classSettings.WndProc must be NULL. Use programSettings.WndProcCallback instead."
      (some 33)))
  else if classSettings.ThisThreadOnly ≠ TRUE then
    ([], .raised (.msg "classSettings.ThisThreadOnly must be TRUE." (some 36)))
  else if windowSettings.LaunchHidden = 0 then
    ([], .raised (.msg "windowSettings.LaunchHidden must be TRUE." (some 39)))
  else if w.lstrcmp windowSettings.ClassName classSettings.Name ≠ 0 then
    ([], .raised (.msg "windowSettings.ClassName and classSettings.Name must match." (some 42)))
  else
    let classSettings := { classSettings with WndProc := WNDPROC.CustomWndProc }
    let p : Program :=
      { _state := State.Created
        _newSize := SizeU 0 0
        _resizeRequested := false
        _profiler := none
        _renderer := none
        _window := none
        _programSettings := programSettings
        _classSettings := classSettings
        _windowSettings := windowSettings
        _rendererSettings := rendererSettings }
    -- lines 59-61
    let (p, ev) :=
      if p._programSettings.DontLogPreformace = false then
        ({ p with _profiler := some ⟨p._programSettings.PreformanceLogInterval⟩ },
          [CtorEvent.newProfiler p._programSettings.PreformanceLogInterval])
      else (p, [])
    -- lines 63-114
    let ev := ev ++ [CtorEvent.spawnWindowThread classSettings windowSettings]
    -- line 116
    match env.window with
    | none => (ev, .processExit)
    | some window =>
      let p := { p with _window := some window }
      -- line 118
      let p := { p with _renderer := some ⟨window.handle, rendererSettings⟩ }
      let ev := ev ++ [CtorEvent.newRenderer window.handle rendererSettings]
      -- lines 120-127
      if p._programSettings.DontResizeBuffer = false then
        match env.GetWindowRect window.handle with
        | .error code => (ev, .raised (.fromCode code 123))
        | .ok windowSize =>
          let newSize := SizeU (toUINT32 (windowSize.right - windowSize.left))
            (toUINT32 (windowSize.bottom - windowSize.top))
          (ev ++ [CtorEvent.Resize newSize], .built p)
      else (ev, .built p)

/-! ## Events of a running Program -/

/-- Calls into collaborators and writes of shared fields, as recorded in a trace. -/
inductive Event
  /-- The call `_renderer->Resize(size)`, line 138. -/
  | Resize (size : D2D1_SIZE_U)
  /-- The call `_renderer->BeginDraw()`, line 142. -/
  | BeginDraw
  /-- The call `_programSettings.UpdateCallback(this)`, line 144. -/
  | UpdateCallback (routine : Nat)
  /-- The call `_renderer->EndDraw()`, line 146. -/
  | EndDraw
  /-- The call `_profiler->Tick()`, line 149, with the pointer it is called on. -/
  | Tick (profiler : Option Profiler)
  /-- The statement `delete _renderer`, line 156. -/
  | deleteRenderer
  /-- The statement `delete _profiler`, line 158. -/
  | deleteProfiler
  /-- The statement `delete _window`, line 110. -/
  | deleteWindow
  /-- The write of `_newSize` at line 18, with the message parameter it was computed from. -/
  | wroteNewSize (lParam : LPARAM) (size : D2D1_SIZE_U)
  /-- The routine `CustomWndProc` returned. -/
  | wndProcReturned (m : Msg) (outcome : Outcome)
  /-- An error reached the caller of `Run`. -/
  | raised (e : Error)
deriving DecidableEq, Repr

/-! ## The run entry point: `EZ::Program::Run` (lines 129-152) -/

/-- Lines 137-150: one pass through the loop body, with the calls it makes. -/
def Run.iteration (p : Program) : Program × List Event :=
  -- lines 137-140
  let (p, calls) :=
    if p._resizeRequested = true then
      ({ p with _resizeRequested := false }, [Event.Resize p._newSize])
    else (p, [])
  -- line 142
  let calls := calls ++ [Event.BeginDraw]
  -- lines 143-145
  let calls :=
    match p._programSettings.UpdateCallback with
    | some routine => calls ++ [Event.UpdateCallback routine]
    | none => calls
  -- line 146
  let calls := calls ++ [Event.EndDraw]
  -- lines 148-150
  let calls :=
    if p._programSettings.DontLogPreformace = false then calls ++ [Event.Tick p._profiler]
    else calls
  (p, calls)

inductive RunResult
  /-- The call raised `e`; the object and the calls made are as given. -/
  | raised (e : Error) (p : Program) (calls : List Event)
  /-- The call returned. -/
  | returned (p : Program) (calls : List Event)
  /-- The loop is still running after the given number of iterations. -/
  | looping (p : Program) (calls : List Event)

/-- Lines 136-151. `windowThread k` lists the writes of the window thread that precede the
loop test of iteration `k`. -/
def Run.loop (windowThread : Nat → List WtWrite) :
    Nat → Nat → Program → List Event → RunResult
  | 0, _, p, calls => .looping p calls
  | fuel + 1, k, p, calls =>
    let p := applyWtWrites (windowThread k) p
    if p._state = State.Running then
      let (p, more) := Run.iteration p
      Run.loop windowThread fuel (k + 1) p (calls ++ more)
    else .returned p calls

/-- The run entry point. -/
def Run (windowThread : Nat → List WtWrite) (fuel : Nat) (p : Program) : RunResult :=
  if p._state ≠ State.Created then
    .raised (.msg "Program can only be ran once." none) p []
  else
    let p := { p with _state := State.Running }
    Run.loop windowThread fuel 0 p []

/-! ## The two execution contexts, interleaved -/

/-- Where the owning context is: outside the object's member functions (`idle`), at a line of
`Run`, at a line of the destructor, or past the destructor (`gone`). -/
inductive OwnerPc
  | idle
  /-- Line 134. -/
  | setRunning
  /-- Line 136. -/
  | loopTest
  /-- Line 137. -/
  | resizeTest
  /-- Line 138. -/
  | callResize
  /-- Line 139. -/
  | clearResize
  /-- Line 142. -/
  | beginDraw
  /-- Lines 143-145. -/
  | update
  /-- Line 146. -/
  | endDraw
  /-- Lines 148-150. -/
  | tick
  /-- Line 156. -/
  | deleteRenderer
  /-- Lines 157-159. -/
  | deleteProfiler
  | gone
deriving DecidableEq, Repr

/-- Where the window thread is, from line 101 on (the window exists and its association with
the Program has been published at line 96). -/
inductive WtPc
  /-- Line 101. -/
  | waitRunning
  /-- Lines 103-104: inside `_window->Run()`, between two messages. -/
  | pump
  /-- Lines 16-18 of `CustomWndProc`, called from the pump. -/
  | writeSize (m : Msg)
  /-- Line 19. -/
  | setFlag (m : Msg)
  /-- Line 20. -/
  | spin (m : Msg)
  /-- Lines 23-28. -/
  | route (m : Msg)
  /-- Line 106. -/
  | writeClosed
  /-- Line 108. -/
  | waitDestroyed
  /-- Line 110. -/
  | deleteWindow
  | exited
deriving DecidableEq, Repr

structure Sys where
  program : Program
  owner : OwnerPc
  wt : WtPc
  trace : List Event

/-- The scheduler's and the environment's choices. -/
inductive Action
  /-- The owner calls `Run` (lines 130-132). -/
  | callRun
  /-- The owner destroys the Program (line 154). -/
  | callDtor
  /-- The owning context executes its next line. -/
  | owner
  /-- The collaborator call the owning context is about to make inside `Run` raises; `Run`
  has no handler, so the error reaches the caller of `Run`. -/
  | raise
  /-- The window thread executes its next line. -/
  | wt
  /-- The pump hands a message to `CustomWndProc` (lines 4-15). -/
  | deliver (m : Msg)
  /-- The pump `_window->Run()` returns: the window was destroyed. -/
  | pumpReturns
deriving DecidableEq, Repr

/-- The owning context is about to call a collaborator from inside `Run`. -/
def ownerCanRaise (s : Sys) : Bool :=
  match s.owner with
  | .callResize => true
  | .beginDraw => true
  | .update => s.program._programSettings.UpdateCallback.isSome
  | .endDraw => true
  | .tick => !s.program._programSettings.DontLogPreformace
  | _ => false

/-- One line of the owning context. -/
def ownerStep (s : Sys) : Option Sys :=
  let p := s.program
  match s.owner with
  | .idle => none
  | .setRunning => some { s with program := { p with _state := State.Running }, owner := .loopTest }
  | .loopTest =>
    if p._state = State.Running then some { s with owner := .resizeTest }
    else some { s with owner := .idle }
  | .resizeTest =>
    if p._resizeRequested = true then some { s with owner := .callResize }
    else some { s with owner := .beginDraw }
  | .callResize =>
    some { s with trace := s.trace ++ [Event.Resize p._newSize], owner := .clearResize }
  | .clearResize =>
    some { s with program := { p with _resizeRequested := false }, owner := .beginDraw }
  | .beginDraw => some { s with trace := s.trace ++ [Event.BeginDraw], owner := .update }
  | .update =>
    match p._programSettings.UpdateCallback with
    | some routine =>
      some { s with trace := s.trace ++ [Event.UpdateCallback routine], owner := .endDraw }
    | none => some { s with owner := .endDraw }
  | .endDraw => some { s with trace := s.trace ++ [Event.EndDraw], owner := .tick }
  | .tick =>
    if p._programSettings.DontLogPreformace = false then
      some { s with trace := s.trace ++ [Event.Tick p._profiler], owner := .loopTest }
    else some { s with owner := .loopTest }
  | .deleteRenderer =>
    some { s with trace := s.trace ++ [Event.deleteRenderer], owner := .deleteProfiler }
  | .deleteProfiler =>
    if p._programSettings.DontLogPreformace = false then
      some { s with trace := s.trace ++ [Event.deleteProfiler], owner := .gone }
    else some { s with owner := .gone }
  | .gone => none

/-- One line of the window thread. A poll that fails leaves the thread where it is. -/
def wtStep (w : Win32) (s : Sys) : Option Sys :=
  let p := s.program
  match s.wt with
  | .waitRunning =>
    if p._state ≠ State.Running then some s else some { s with wt := .pump }
  | .pump => none
  | .writeSize m =>
    some { s with
      program := { p with _newSize := sizeOfLParam m.lParam }
      trace := s.trace ++ [Event.wroteNewSize m.lParam (sizeOfLParam m.lParam)]
      wt := .setFlag m }
  | .setFlag m => some { s with program := { p with _resizeRequested := true }, wt := .spin m }
  | .spin m =>
    if p._resizeRequested = true then some s else some { s with wt := .route m }
  | .route m =>
    some { s with
      trace := s.trace ++ [Event.wndProcReturned m (CustomWndProc.route w p m)]
      wt := .pump }
  | .writeClosed => some { s with program := { p with _state := State.Closed }, wt := .waitDestroyed }
  | .waitDestroyed =>
    if p._state ≠ State.Destroyed then some s else some { s with wt := .deleteWindow }
  | .deleteWindow => some { s with trace := s.trace ++ [Event.deleteWindow], wt := .exited }
  | .exited => none

/-- Lines 4-15 of `CustomWndProc`, entered from the pump with the Program associated. -/
def deliverStep (m : Msg) (s : Sys) : Option Sys :=
  let p := s.program
  match s.wt with
  | .pump =>
    if m.uMsg = WM_CLOSE ∧ p._programSettings.IgnoreWMClose = true then
      some { s with trace := s.trace ++ [Event.wndProcReturned m ⟨Via.swallowed, 0⟩] }
    else if m.uMsg = WM_SIZE ∧ p._programSettings.DontResizeBuffer = false then
      some { s with wt := .writeSize m }
    else some { s with wt := .route m }
  | _ => none

/-- One step of the interleaved system; `none` when the action is not enabled. -/
def step (w : Win32) (a : Action) (s : Sys) : Option Sys :=
  match a with
  | .callRun =>
    match s.owner with
    | .idle =>
      if s.program._state ≠ State.Created then
        some { s with
          trace := s.trace ++ [Event.raised (.msg "Program can only be ran once." none)] }
      else some { s with owner := .setRunning }
    | _ => none
  | .callDtor =>
    match s.owner with
    | .idle =>
      some { s with program := { s.program with _state := State.Destroyed }, owner := .deleteRenderer }
    | _ => none
  | .owner => ownerStep s
  | .raise =>
    if ownerCanRaise s = true then
      some { s with trace := s.trace ++ [Event.raised Error.collaborator], owner := .idle }
    else none
  | .wt => wtStep w s
  | .deliver m => deliverStep m s
  | .pumpReturns =>
    match s.wt with
    | .pump => some { s with wt := .writeClosed }
    | _ => none

/-- Run a schedule from a state; `none` when one of its actions is not enabled. -/
def exec (w : Win32) : List Action → Sys → Option Sys
  | [], s => some s
  | a :: rest, s =>
    match step w a s with
    | some s1 => exec w rest s1
    | none => none

/-- The system right after the constructor returned `p`: the owner is outside the object's
member functions and the window thread is at line 101. -/
def Sys.init (p : Program) : Sys :=
  { program := p, owner := .idle, wt := .waitRunning, trace := [] }

/-! ## The routing table in the words of section 4.5 -/

/-- The message starts the resize handshake of section 4.3 (line 15 is taken). -/
def startsHandshake (userData : Option Program) (m : Msg) : Bool :=
  match userData with
  | none => false
  | some p =>
    !(decide (m.uMsg = WM_CLOSE) && p._programSettings.IgnoreWMClose)
      && (decide (m.uMsg = WM_SIZE) && !p._programSettings.DontResizeBuffer)

/-! ## The configuration check in the words of section 7 -/

/-- The four construction preconditions, any of which being violated: a window procedure
was supplied, `ThisThreadOnly` is not `TRUE`, `LaunchHidden` is false, or the two class names
compare unequal. -/
def violatesPrecondition (w : Win32) (classSettings : ClassSettings)
    (windowSettings : WindowSettings) : Prop :=
  classSettings.WndProc ≠ WNDPROC.null ∨ classSettings.ThisThreadOnly ≠ TRUE
    ∨ windowSettings.LaunchHidden = 0
    ∨ w.lstrcmp windowSettings.ClassName classSettings.Name ≠ 0

instance violatesPrecondition.decidable (w : Win32) (classSettings : ClassSettings)
    (windowSettings : WindowSettings) :
    Decidable (violatesPrecondition w classSettings windowSettings) := by
  unfold violatesPrecondition
  infer_instance

/-- The error is one of the four raised by lines 32-43. -/
def Error.isPrecondition : Error → Bool
  | .msg _ (some line) => line = 33 || line = 36 || line = 39 || line = 42
  | _ => false

/-! ## Concrete values -/

def demoWin32 : Win32 :=
  { DefWindowProc := fun _ uMsg _ _ => if uMsg = WM_CLOSE then 0 else 7
    lstrcmp := fun a b => if a = b then 0 else 1 }

def demoClassSettings : ClassSettings :=
  { Name := none, WndProc := WNDPROC.null, Icon := 0, Cursor := 0, CustomBackPaint := 0
    BackColorR := 0, BackColorG := 0, BackColorB := 0, Styles := 0, DontRedrawOnSize := 0
    UniversalDropShadow := 0, IgnoreDoubleClicks := 0, NoCloseOption := 0
    SaveClippedGraphics := 0, ThisThreadOnly := TRUE }

def demoWindowSettings : WindowSettings :=
  { Title := none, ClassName := none, InitialX := 0, InitialY := 0, InitialWidth := 640
    InitialHeight := 480, Styles := 0, ExtendedStyles := 0
    StylePreset := WindowStylePreset.Normal, LaunchHidden := 1, DragNDropFiles := 0
    IgnoreFocusSwitch := 0, TopMost := 0, HideInTaskbar := 0 }

/-- Settings with no callbacks, resize handling and performance logging enabled. -/
def demoSettings : ProgramSettings :=
  { UpdateCallback := none, WndProcCallback := none, IgnoreWMClose := false
    DontResizeBuffer := false, DontLogPreformace := false, PreformanceLogInterval := 60 }

/-- A Program as the constructor leaves it for `demoSettings` and window handle 1. -/
def demoProgram : Program :=
  { _state := State.Created
    _newSize := SizeU 0 0
    _resizeRequested := false
    _profiler := some ⟨60⟩
    _renderer := some ⟨1, ⟨0⟩⟩
    _window := some ⟨1⟩
    _programSettings := demoSettings
    _classSettings := { demoClassSettings with WndProc := WNDPROC.CustomWndProc }
    _windowSettings := demoWindowSettings
    _rendererSettings := ⟨0⟩ }

/-- A running Program with no message callback that is configured to ignore close
messages. -/
def closeIgnoringProgram : Program :=
  { demoProgram with
    _state := State.Running
    _programSettings := { demoSettings with IgnoreWMClose := true } }

/-- A Program whose `Run` has been entered. -/
def runningProgram : Program := { demoProgram with _state := State.Running }

/-! ## Transitions, invariants and schedules used by the proofs -/

/-- The transitions of `step`, one constructor per source line and branch. -/
inductive Trans (w : Win32) : Action → Sys → Sys → Prop
  | runRaises (p : Program) (t : WtPc) (tr : List Event) (h : p._state ≠ State.Created) :
      Trans w .callRun ⟨p, .idle, t, tr⟩
        ⟨p, .idle, t, tr ++ [Event.raised (.msg "Program can only be ran once." none)]⟩
  | runEnters (p : Program) (t : WtPc) (tr : List Event) (h : p._state = State.Created) :
      Trans w .callRun ⟨p, .idle, t, tr⟩ ⟨p, .setRunning, t, tr⟩
  | dtor (p : Program) (t : WtPc) (tr : List Event) :
      Trans w .callDtor ⟨p, .idle, t, tr⟩
        ⟨{ p with _state := State.Destroyed }, .deleteRenderer, t, tr⟩
  | setRunning (p : Program) (t : WtPc) (tr : List Event) :
      Trans w .owner ⟨p, .setRunning, t, tr⟩ ⟨{ p with _state := State.Running }, .loopTest, t, tr⟩
  | loopEnter (p : Program) (t : WtPc) (tr : List Event) (h : p._state = State.Running) :
      Trans w .owner ⟨p, .loopTest, t, tr⟩ ⟨p, .resizeTest, t, tr⟩
  | loopExit (p : Program) (t : WtPc) (tr : List Event) (h : p._state ≠ State.Running) :
      Trans w .owner ⟨p, .loopTest, t, tr⟩ ⟨p, .idle, t, tr⟩
  | resizeSeen (p : Program) (t : WtPc) (tr : List Event) (h : p._resizeRequested = true) :
      Trans w .owner ⟨p, .resizeTest, t, tr⟩ ⟨p, .callResize, t, tr⟩
  | resizeNotSeen (p : Program) (t : WtPc) (tr : List Event) (h : p._resizeRequested = false) :
      Trans w .owner ⟨p, .resizeTest, t, tr⟩ ⟨p, .beginDraw, t, tr⟩
  | callResize (p : Program) (t : WtPc) (tr : List Event) :
      Trans w .owner ⟨p, .callResize, t, tr⟩ ⟨p, .clearResize, t, tr ++ [Event.Resize p._newSize]⟩
  | clearResize (p : Program) (t : WtPc) (tr : List Event) :
      Trans w .owner ⟨p, .clearResize, t, tr⟩ ⟨{ p with _resizeRequested := false }, .beginDraw, t, tr⟩
  | beginDraw (p : Program) (t : WtPc) (tr : List Event) :
      Trans w .owner ⟨p, .beginDraw, t, tr⟩ ⟨p, .update, t, tr ++ [Event.BeginDraw]⟩
  | updateCalled (p : Program) (t : WtPc) (tr : List Event) (routine : Nat)
      (h : p._programSettings.UpdateCallback = some routine) :
      Trans w .owner ⟨p, .update, t, tr⟩ ⟨p, .endDraw, t, tr ++ [Event.UpdateCallback routine]⟩
  | updateSkipped (p : Program) (t : WtPc) (tr : List Event)
      (h : p._programSettings.UpdateCallback = none) :
      Trans w .owner ⟨p, .update, t, tr⟩ ⟨p, .endDraw, t, tr⟩
  | endDraw (p : Program) (t : WtPc) (tr : List Event) :
      Trans w .owner ⟨p, .endDraw, t, tr⟩ ⟨p, .tick, t, tr ++ [Event.EndDraw]⟩
  | tickCalled (p : Program) (t : WtPc) (tr : List Event)
      (h : p._programSettings.DontLogPreformace = false) :
      Trans w .owner ⟨p, .tick, t, tr⟩ ⟨p, .loopTest, t, tr ++ [Event.Tick p._profiler]⟩
  | tickSkipped (p : Program) (t : WtPc) (tr : List Event)
      (h : p._programSettings.DontLogPreformace = true) :
      Trans w .owner ⟨p, .tick, t, tr⟩ ⟨p, .loopTest, t, tr⟩
  | deleteRenderer (p : Program) (t : WtPc) (tr : List Event) :
      Trans w .owner ⟨p, .deleteRenderer, t, tr⟩ ⟨p, .deleteProfiler, t, tr ++ [Event.deleteRenderer]⟩
  | deleteProfiler (p : Program) (t : WtPc) (tr : List Event)
      (h : p._programSettings.DontLogPreformace = false) :
      Trans w .owner ⟨p, .deleteProfiler, t, tr⟩ ⟨p, .gone, t, tr ++ [Event.deleteProfiler]⟩
  | keepProfiler (p : Program) (t : WtPc) (tr : List Event)
      (h : p._programSettings.DontLogPreformace = true) :
      Trans w .owner ⟨p, .deleteProfiler, t, tr⟩ ⟨p, .gone, t, tr⟩
  | raise (p : Program) (o : OwnerPc) (t : WtPc) (tr : List Event)
      (h : ownerCanRaise ⟨p, o, t, tr⟩ = true) :
      Trans w .raise ⟨p, o, t, tr⟩ ⟨p, .idle, t, tr ++ [Event.raised Error.collaborator]⟩
  | waitRunningPoll (p : Program) (o : OwnerPc) (tr : List Event) (h : p._state ≠ State.Running) :
      Trans w .wt ⟨p, o, .waitRunning, tr⟩ ⟨p, o, .waitRunning, tr⟩
  | waitRunningDone (p : Program) (o : OwnerPc) (tr : List Event) (h : p._state = State.Running) :
      Trans w .wt ⟨p, o, .waitRunning, tr⟩ ⟨p, o, .pump, tr⟩
  | writeSize (p : Program) (o : OwnerPc) (tr : List Event) (m : Msg) :
      Trans w .wt ⟨p, o, .writeSize m, tr⟩
        ⟨{ p with _newSize := sizeOfLParam m.lParam }, o, .setFlag m,
          tr ++ [Event.wroteNewSize m.lParam (sizeOfLParam m.lParam)]⟩
  | setFlag (p : Program) (o : OwnerPc) (tr : List Event) (m : Msg) :
      Trans w .wt ⟨p, o, .setFlag m, tr⟩ ⟨{ p with _resizeRequested := true }, o, .spin m, tr⟩
  | spinPoll (p : Program) (o : OwnerPc) (tr : List Event) (m : Msg)
      (h : p._resizeRequested = true) :
      Trans w .wt ⟨p, o, .spin m, tr⟩ ⟨p, o, .spin m, tr⟩
  | spinDone (p : Program) (o : OwnerPc) (tr : List Event) (m : Msg)
      (h : p._resizeRequested = false) :
      Trans w .wt ⟨p, o, .spin m, tr⟩ ⟨p, o, .route m, tr⟩
  | route (p : Program) (o : OwnerPc) (tr : List Event) (m : Msg) :
      Trans w .wt ⟨p, o, .route m, tr⟩
        ⟨p, o, .pump, tr ++ [Event.wndProcReturned m (CustomWndProc.route w p m)]⟩
  | writeClosed (p : Program) (o : OwnerPc) (tr : List Event) :
      Trans w .wt ⟨p, o, .writeClosed, tr⟩ ⟨{ p with _state := State.Closed }, o, .waitDestroyed, tr⟩
  | waitDestroyedPoll (p : Program) (o : OwnerPc) (tr : List Event)
      (h : p._state ≠ State.Destroyed) :
      Trans w .wt ⟨p, o, .waitDestroyed, tr⟩ ⟨p, o, .waitDestroyed, tr⟩
  | waitDestroyedDone (p : Program) (o : OwnerPc) (tr : List Event)
      (h : p._state = State.Destroyed) :
      Trans w .wt ⟨p, o, .waitDestroyed, tr⟩ ⟨p, o, .deleteWindow, tr⟩
  | deleteWindow (p : Program) (o : OwnerPc) (tr : List Event) :
      Trans w .wt ⟨p, o, .deleteWindow, tr⟩ ⟨p, o, .exited, tr ++ [Event.deleteWindow]⟩
  | swallowClose (p : Program) (o : OwnerPc) (tr : List Event) (m : Msg)
      (h : m.uMsg = WM_CLOSE ∧ p._programSettings.IgnoreWMClose = true) :
      Trans w (.deliver m) ⟨p, o, .pump, tr⟩
        ⟨p, o, .pump, tr ++ [Event.wndProcReturned m ⟨Via.swallowed, 0⟩]⟩
  | startResize (p : Program) (o : OwnerPc) (tr : List Event) (m : Msg)
      (hc : ¬(m.uMsg = WM_CLOSE ∧ p._programSettings.IgnoreWMClose = true))
      (h : m.uMsg = WM_SIZE ∧ p._programSettings.DontResizeBuffer = false) :
      Trans w (.deliver m) ⟨p, o, .pump, tr⟩ ⟨p, o, .writeSize m, tr⟩
  | toRoute (p : Program) (o : OwnerPc) (tr : List Event) (m : Msg)
      (hc : ¬(m.uMsg = WM_CLOSE ∧ p._programSettings.IgnoreWMClose = true))
      (h : ¬(m.uMsg = WM_SIZE ∧ p._programSettings.DontResizeBuffer = false)) :
      Trans w (.deliver m) ⟨p, o, .pump, tr⟩ ⟨p, o, .route m, tr⟩
  | pumpReturns (p : Program) (o : OwnerPc) (tr : List Event) :
      Trans w .pumpReturns ⟨p, o, .pump, tr⟩ ⟨p, o, .writeClosed, tr⟩

/-- The owning context is inside the loop of `Run` (lines 136-150). -/
def OwnerPc.inLoop : OwnerPc → Bool
  | .loopTest | .resizeTest | .callResize | .clearResize | .beginDraw | .update | .endDraw
  | .tick => true
  | _ => false

/-- The owning context is past line 154 of the destructor. -/
def OwnerPc.inDtor : OwnerPc → Bool
  | .deleteRenderer | .deleteProfiler | .gone => true
  | _ => false

/-- The window thread is between line 101 and the write of line 106. -/
def WtPc.pumping : WtPc → Bool
  | .pump | .writeSize _ | .setFlag _ | .spin _ | .route _ | .writeClosed => true
  | _ => false

/-- The window thread is past the write of line 106. -/
def WtPc.closing : WtPc → Bool
  | .waitDestroyed | .deleteWindow | .exited => true
  | _ => false

/-- What links the state to the two program counters as long as no error leaves `Run`. -/
def monoInv (s : Sys) : Prop :=
  (s.wt = WtPc.waitRunning →
      ((s.owner = OwnerPc.idle ∨ s.owner = OwnerPc.setRunning)
          ∧ s.program._state = State.Created)
      ∨ (s.owner.inLoop = true ∧ s.program._state = State.Running)
      ∨ (s.owner.inDtor = true ∧ s.program._state = State.Destroyed))
  ∧ (s.wt.pumping = true → s.owner.inLoop = true ∧ s.program._state = State.Running)
  ∧ (s.wt.closing = true →
      ((s.owner.inLoop = true ∨ s.owner = OwnerPc.idle) ∧ s.program._state = State.Closed)
      ∨ (s.owner.inDtor = true ∧ s.program._state = State.Destroyed))

/-- A Program as the constructor leaves it when an update callback (the routine at address
1) is configured. -/
def callbackProgram : Program :=
  { demoProgram with _programSettings := { demoSettings with UpdateCallback := some 1 } }

/-- A schedule in which the update callback raises out of `Run` (line 144) and the owner then
destroys the Program while the window thread is still in its pump; the pump returns
afterwards. -/
def raiseSchedule : List Action :=
  [.callRun, .owner, .wt, .owner, .owner, .owner, .raise, .callDtor, .pumpReturns]

/-- Whether the calls so far leave a frame open: the last of the `BeginDraw` and `EndDraw`
calls is a `BeginDraw`. -/
def inFrame (tr : List Event) : Bool :=
  tr.foldl (fun b e => match e with
    | Event.BeginDraw => true
    | Event.EndDraw => false
    | _ => b) false

/-- Every `Resize` of the trace is issued with no frame open. -/
def resizesOutsideFrames (tr : List Event) : Prop :=
  ∀ pre size post, tr = pre ++ Event.Resize size :: post → inFrame pre = false

/-- What links the open frame to the owner's program counter. -/
def frameInv (s : Sys) : Prop :=
  resizesOutsideFrames s.trace
  ∧ (s.owner.inLoop = true → s.program._state ≠ State.Created)
  ∧ (inFrame s.trace = true →
      s.owner = OwnerPc.update ∨ s.owner = OwnerPc.endDraw
      ∨ (s.program._state ≠ State.Created ∧ (s.owner = OwnerPc.idle ∨ s.owner.inDtor = true)))

/-- One event of the handoff between the two contexts. The state is `some none` when no size
is pending, `some (some size)` when `size` was written and not yet passed to `Resize`, and
`none` once a written size was overwritten before it was passed on, or `Resize` was called
with anything but the pending size. -/
def handoffScan : Option (Option D2D1_SIZE_U) → Event → Option (Option D2D1_SIZE_U)
  | none, _ => none
  | some none, .wroteNewSize _ size => some (some size)
  | some (some _), .wroteNewSize _ _ => none
  | some none, .Resize _ => none
  | some (some pending), .Resize size => if pending = size then some none else none
  | some st, _ => some st

/-- The handoff state after a trace, starting with no size pending. -/
def handoff (tr : List Event) : Option (Option D2D1_SIZE_U) :=
  tr.foldl handoffScan (some none)

/-- The sizes passed to `Resize`, in order. -/
def resizeCalls (tr : List Event) : List D2D1_SIZE_U :=
  tr.filterMap (fun e => match e with
    | Event.Resize size => some size
    | _ => none)

/-- The window thread is at line 19. -/
def WtPc.isSetFlag : WtPc → Bool
  | .setFlag _ => true
  | _ => false

/-- What links the flag, the two program counters and the handoff state: while the flag is set
the window thread spins at line 20 and the written size is pending until line 138 passed it
on; while it is clear the owner is not at lines 138-139 and a size is pending only between
lines 18 and 19. -/
def handoffInv (s : Sys) : Prop :=
  (s.program._resizeRequested = true →
      (∃ m, s.wt = WtPc.spin m)
      ∧ handoff s.trace
        = some (if s.owner = OwnerPc.clearResize then none else some s.program._newSize))
  ∧ (s.program._resizeRequested = false →
      s.owner ≠ OwnerPc.callResize ∧ s.owner ≠ OwnerPc.clearResize
      ∧ handoff s.trace
        = some (if s.wt.isSetFlag = true then some s.program._newSize else none))

/-- Every recorded write of `_newSize` wrote the size computed from the message. -/
def writesFromMessage (tr : List Event) : Prop :=
  ∀ l size, Event.wroteNewSize l size ∈ tr → size = sizeOfLParam l

/-- With resize handling disabled nothing of the handshake ever happens. -/
def resizeDisabledInv (size0 : D2D1_SIZE_U) (s : Sys) : Prop :=
  s.program._programSettings.DontResizeBuffer = true
  ∧ s.program._resizeRequested = false
  ∧ s.program._newSize = size0
  ∧ (∀ size, Event.Resize size ∉ s.trace)
  ∧ (∀ l size, Event.wroteNewSize l size ∉ s.trace)
  ∧ s.owner ≠ OwnerPc.callResize ∧ s.owner ≠ OwnerPc.clearResize
  ∧ (∀ m, s.wt ≠ WtPc.writeSize m) ∧ (∀ m, s.wt ≠ WtPc.setFlag m)

/-- The settings and the Profiler pointer are those the Program was constructed with. -/
def configInv (p0 : Program) (s : Sys) : Prop :=
  s.program._programSettings = p0._programSettings ∧ s.program._profiler = p0._profiler

/-- Every recorded `Tick` was made with performance logging enabled, on the pointer the
Program was constructed with. -/
def ticksOnProfiler (p0 : Program) (tr : List Event) : Prop :=
  ∀ pr, Event.Tick pr ∈ tr →
    p0._programSettings.DontLogPreformace = false ∧ pr = p0._profiler

/-- The two facts about the Profiler that every step preserves. -/
def tickInv (p0 : Program) (s : Sys) : Prop :=
  configInv p0 s ∧ ticksOnProfiler p0 s.trace

/-- A size-change message for a 640 by 480 client area. -/
def sizeMsg : Msg := ⟨1, WM_SIZE, 0, 0x01E00280⟩

/-- A schedule in which a size-change message arrives while `Run` is looping and the loop
consumes it and draws a frame. -/
def resizeSchedule : List Action :=
  [.callRun, .owner, .wt, .deliver sizeMsg, .wt, .wt, .owner, .owner, .owner, .owner, .owner,
    .owner, .owner]

/-- The system at the end of `resizeSchedule`. -/
def resizedFrame : Sys :=
  { program :=
      { demoProgram with
        _state := State.Running
        _newSize := sizeOfLParam sizeMsg.lParam
        _resizeRequested := false }
    owner := OwnerPc.tick
    wt := WtPc.spin sizeMsg
    trace :=
      [Event.wroteNewSize sizeMsg.lParam (sizeOfLParam sizeMsg.lParam),
        Event.Resize (sizeOfLParam sizeMsg.lParam), Event.BeginDraw, Event.EndDraw] }

/-- A Program constructed with resize handling disabled. -/
def fixedBufferProgram : Program :=
  { demoProgram with _programSettings := { demoSettings with DontResizeBuffer := true } }

/-- The calls a run of `Run` made. -/
def RunResult.calls : RunResult → List Event
  | .raised _ _ calls => calls
  | .returned _ calls => calls
  | .looping _ calls => calls

/-- The objects as the loop test of line 136 found them, one for every pass that test let
through, in order. -/
def Run.passes (windowThread : Nat → List WtWrite) : Nat → Nat → Program → List Program
  | 0, _, _ => []
  | fuel + 1, k, p =>
    let p := applyWtWrites (windowThread k) p
    if p._state = State.Running then
      p :: Run.passes windowThread fuel (k + 1) (Run.iteration p).1
    else []

/-- The calls of the listed passes, one pass after the other. -/
def callsOfPasses : List Program → List Event
  | [] => []
  | p :: rest => (Run.iteration p).2 ++ callsOfPasses rest

/-- A window thread that closes the window before the third loop test. -/
def closesAfterTwo : Nat → List WtWrite := fun k => if k = 2 then [WtWrite.setClosed] else []

/-- A schedule in which the update callback raises during the first pass of the loop. -/
def passLeftSchedule : List Action :=
  [.callRun, .owner, .owner, .owner, .owner, .raise]

theorem OwnerWrite.apply_settings (x : OwnerWrite) (p : Program) :
    (x.apply p)._programSettings = p._programSettings := by
  cases x <;> rfl

theorem applyOwnerWrites_settings (ws : List OwnerWrite) (p : Program) :
    (applyOwnerWrites ws p)._programSettings = p._programSettings := by
  induction ws generalizing p with
  | nil => rfl
  | cons x xs ih =>
    show (applyOwnerWrites xs (x.apply p))._programSettings = _
    rw [ih, x.apply_settings]

theorem spin_some (owner : Nat → List OwnerWrite) :
    ∀ (fuel k : Nat) (p q : Program), spinWhileResizeRequested owner fuel k p = some q →
      q._resizeRequested = false ∧ q._programSettings = p._programSettings := by
  intro fuel
  induction fuel with
  | zero => intro k p q h; simp [spinWhileResizeRequested] at h
  | succ n ih =>
    intro k p q h
    unfold spinWhileResizeRequested at h
    split at h
    · obtain ⟨h1, h2⟩ := ih _ _ _ h
      exact ⟨h1, by rw [h2, applyOwnerWrites_settings]⟩
    · rename_i hflag
      injection h with h
      subst h
      exact ⟨by simpa using hflag, rfl⟩

theorem spin_returns (owner : Nat → List OwnerWrite) :
    ∀ (n fuel k : Nat) (p : Program), (polledFrom owner k p n)._resizeRequested = false →
      n < fuel → ∃ q, spinWhileResizeRequested owner fuel k p = some q := by
  intro n
  induction n with
  | zero =>
    intro fuel k p h hlt
    obtain ⟨f, rfl⟩ : ∃ f, fuel = f + 1 := ⟨fuel - 1, by omega⟩
    refine ⟨p, ?_⟩
    have hp : p._resizeRequested = false := h
    simp [spinWhileResizeRequested, hp]
  | succ n ih =>
    intro fuel k p h hlt
    obtain ⟨f, rfl⟩ : ∃ f, fuel = f + 1 := ⟨fuel - 1, by omega⟩
    unfold spinWhileResizeRequested
    split
    · exact ih f (k + 1) _ h (by omega)
    · exact ⟨p, rfl⟩

theorem route_without_callback (w : Win32) (p : Program) (m : Msg)
    (h : p._programSettings.WndProcCallback = none) :
    CustomWndProc.route w p m =
      ⟨Via.DefWindowProc, w.DefWindowProc m.hwnd m.uMsg m.wParam m.lParam⟩ := by
  unfold CustomWndProc.route
  rw [h]

/-- C1. For a Program whose state is Running, Closed or Destroyed, `Run` raises the error
"Program can only be ran once." and the object is left exactly as it was (state, pending
size and flag included) with no call made; in the interleaved system the call of `Run`
changes nothing but the trace, to which it adds that error only. -/
theorem C1_Run_raises_unless_Created (windowThread : Nat → List WtWrite) (fuel : Nat)
    (p : Program)
    (h : p._state = State.Running ∨ p._state = State.Closed ∨ p._state = State.Destroyed) :
    Run windowThread fuel p = .raised (.msg "Program can only be ran once." none) p []
    ∧ ∀ (w : Win32) (wt : WtPc) (trace : List Event),
        step w Action.callRun ⟨p, OwnerPc.idle, wt, trace⟩
          = some ⟨p, OwnerPc.idle, wt,
              trace ++ [Event.raised (.msg "Program can only be ran once." none)]⟩ := by
  have hne : p._state ≠ State.Created := by
    rcases h with h | h | h <;> rw [h] <;> decide
  refine ⟨?_, ?_⟩
  · unfold Run
    rw [if_pos hne]
  · intro w wt trace
    simp [step, hne]

theorem C1_Run_raises_unless_Created_witness :
    Run (fun _ => []) 5 runningProgram
        = .raised (.msg "Program can only be ran once." none) runningProgram []
    ∧ ∀ (w : Win32) (wt : WtPc) (trace : List Event),
        step w Action.callRun ⟨runningProgram, OwnerPc.idle, wt, trace⟩
          = some ⟨runningProgram, OwnerPc.idle, wt,
              trace ++ [Event.raised (.msg "Program can only be ran once." none)]⟩ :=
  C1_Run_raises_unless_Created (fun _ => []) 5 runningProgram (Or.inl rfl)

/-! ## C7 and C9: message routing -/

/-- C7, as stated, fails: with no callback configured, a close message sent to a Program
that is configured to ignore close messages is answered 0 by line 13, and `DefWindowProc`
is not the routine that answered. -/
theorem C7_close_is_swallowed_counterexample :
    closeIgnoringProgram._programSettings.WndProcCallback = none
    ∧ CustomWndProc demoWin32 (fun _ => []) 1 (some closeIgnoringProgram) ⟨1, WM_CLOSE, 0, 0⟩
        = some (⟨Via.swallowed, 0⟩, some closeIgnoringProgram)
    ∧ ¬ ∃ r p, CustomWndProc demoWin32 (fun _ => []) 1 (some closeIgnoringProgram)
        ⟨1, WM_CLOSE, 0, 0⟩ = some (⟨Via.DefWindowProc, r⟩, p) := by
  refine ⟨rfl, rfl, ?_⟩
  rintro ⟨r, p, h⟩
  have h2 : CustomWndProc demoWin32 (fun _ => []) 1 (some closeIgnoringProgram)
      ⟨1, WM_CLOSE, 0, 0⟩ = some (⟨Via.swallowed, 0⟩, some closeIgnoringProgram) := rfl
  rw [h2] at h
  injection h with h
  injection h with h _
  injection h with h _
  cases h

/-- C7, amended. With no callback configured, every message other than a close message
that is configured to be ignored gets default handling, in every state: whenever
`CustomWndProc` returns, it returns the result of `DefWindowProc`; it returns at once when
the message does not start the resize handshake, and for a size-change message that starts
it, it returns as soon as a poll of line 20 finds the flag clear. -/
theorem C7_default_handling_without_callback (w : Win32) (owner : Nat → List OwnerWrite)
    (fuel : Nat) (p : Program) (m : Msg)
    (hcb : p._programSettings.WndProcCallback = none)
    (hclose : ¬(m.uMsg = WM_CLOSE ∧ p._programSettings.IgnoreWMClose = true)) :
    (∀ out q, CustomWndProc w owner fuel (some p) m = some (out, q) →
        out = ⟨Via.DefWindowProc, w.DefWindowProc m.hwnd m.uMsg m.wParam m.lParam⟩)
    ∧ (startsHandshake (some p) m = false →
        CustomWndProc w owner fuel (some p) m
          = some (⟨Via.DefWindowProc, w.DefWindowProc m.hwnd m.uMsg m.wParam m.lParam⟩,
              some p))
    ∧ (∀ n, (polledFrom owner 0
          { p with _newSize := sizeOfLParam m.lParam, _resizeRequested := true }
          n)._resizeRequested = false → n < fuel →
        ∃ q, CustomWndProc w owner fuel (some p) m
          = some (⟨Via.DefWindowProc, w.DefWindowProc m.hwnd m.uMsg m.wParam m.lParam⟩,
              some q)) := by
  refine ⟨?_, ?_, ?_⟩
  · intro out q h
    unfold CustomWndProc at h
    simp only [if_neg hclose] at h
    split at h
    · split at h
      · cases h
      · rename_i p3 hspin
        injection h with h
        injection h with h _
        rw [← h]
        apply route_without_callback
        rw [(spin_some owner _ _ _ _ hspin).2]
        exact hcb
    · injection h with h
      injection h with h _
      rw [← h]
      exact route_without_callback w p m hcb
  · intro hs
    have hsize : ¬(m.uMsg = WM_SIZE ∧ p._programSettings.DontResizeBuffer = false) := by
      intro hx
      simp [startsHandshake, hx.1, hx.2] at hs
      exact hclose ⟨by rw [← hs.1, hx.1], hs.2⟩
    unfold CustomWndProc
    simp only [if_neg hclose, if_neg hsize]
    rw [route_without_callback w p m hcb]
  · intro n hn hlt
    obtain ⟨q, hq⟩ := spin_returns owner n fuel 0 _ hn hlt
    unfold CustomWndProc
    simp only [if_neg hclose]
    split
    · refine ⟨q, ?_⟩
      simp only [hq]
      rw [route_without_callback w q m]
      rw [(spin_some owner _ _ _ _ hq).2]
      exact hcb
    · rename_i hsize
      exact ⟨p, by rw [route_without_callback w p m hcb]⟩

theorem C7_default_handling_without_callback_witness :
    (∀ out q, CustomWndProc demoWin32 (fun _ => [OwnerWrite.clearResize]) 3
        (some runningProgram) ⟨1, WM_SIZE, 0, 0x01E00280⟩ = some (out, q) →
        out = ⟨Via.DefWindowProc, demoWin32.DefWindowProc 1 WM_SIZE 0 0x01E00280⟩)
    ∧ (startsHandshake (some runningProgram) ⟨1, WM_SIZE, 0, 0x01E00280⟩ = false →
        CustomWndProc demoWin32 (fun _ => [OwnerWrite.clearResize]) 3
          (some runningProgram) ⟨1, WM_SIZE, 0, 0x01E00280⟩
          = some (⟨Via.DefWindowProc, demoWin32.DefWindowProc 1 WM_SIZE 0 0x01E00280⟩,
              some runningProgram))
    ∧ (∀ n, (polledFrom (fun _ => [OwnerWrite.clearResize]) 0
          { runningProgram with
            _newSize := sizeOfLParam 0x01E00280, _resizeRequested := true }
          n)._resizeRequested = false → n < 3 →
        ∃ q, CustomWndProc demoWin32 (fun _ => [OwnerWrite.clearResize]) 3
          (some runningProgram) ⟨1, WM_SIZE, 0, 0x01E00280⟩
          = some (⟨Via.DefWindowProc, demoWin32.DefWindowProc 1 WM_SIZE 0 0x01E00280⟩,
              some q)) :=
  C7_default_handling_without_callback demoWin32 (fun _ => [OwnerWrite.clearResize]) 3
    runningProgram ⟨1, WM_SIZE, 0, 0x01E00280⟩ rfl (by decide)

/-- C4, as stated, fails in its "only if" half: with a configuration that satisfies all four
preconditions and resize handling enabled, the constructor raises when `GetWindowRect`
fails (line 123), after the Profiler was allocated, the window thread spawned and the
Renderer created. -/
theorem C4_raises_on_valid_configuration_counterexample :
    ¬ violatesPrecondition demoWin32 demoClassSettings demoWindowSettings
    ∧ Program.ctor demoWin32 ⟨some ⟨1⟩, fun _ => .error 1400⟩ demoSettings demoClassSettings
        demoWindowSettings ⟨0⟩
      = ([CtorEvent.newProfiler 60,
          CtorEvent.spawnWindowThread
            { demoClassSettings with WndProc := WNDPROC.CustomWndProc } demoWindowSettings,
          CtorEvent.newRenderer 1 ⟨0⟩],
         CtorResult.raised (Error.fromCode 1400 123)) := by
  refine ⟨by decide, rfl⟩

/-- C4, amended. For every configuration and environment, the constructor raises one of the
four precondition errors of lines 32-43 if and only if `WndProc` is non-null, or
`ThisThreadOnly` is not `TRUE`, or `LaunchHidden` is false, or the class names compare
unequal; when it does, it has performed no effect (no Profiler allocated, no window thread
spawned). Any other error it raises is the failure of `GetWindowRect` at line 123, with
resize handling enabled, after the window thread published the Window. -/
theorem C4_construction_validation (w : Win32) (env : CtorEnv)
    (programSettings : ProgramSettings) (classSettings : ClassSettings)
    (windowSettings : WindowSettings) (rendererSettings : RendererSettings) :
    (violatesPrecondition w classSettings windowSettings ↔
      ∃ e, (Program.ctor w env programSettings classSettings windowSettings
        rendererSettings).2 = CtorResult.raised e ∧ e.isPrecondition = true)
    ∧ (violatesPrecondition w classSettings windowSettings →
        (Program.ctor w env programSettings classSettings windowSettings
          rendererSettings).1 = [])
    ∧ (∀ e, (Program.ctor w env programSettings classSettings windowSettings
          rendererSettings).2 = CtorResult.raised e → e.isPrecondition = false →
        programSettings.DontResizeBuffer = false
        ∧ ∃ window code, env.window = some window
          ∧ env.GetWindowRect window.handle = .error code ∧ e = Error.fromCode code 123
          ∧ CtorEvent.spawnWindowThread
              { classSettings with WndProc := WNDPROC.CustomWndProc } windowSettings
            ∈ (Program.ctor w env programSettings classSettings windowSettings
              rendererSettings).1) := by
  unfold violatesPrecondition
  by_cases h1 : classSettings.WndProc ≠ WNDPROC.null
  · simp [Program.ctor, h1, Error.isPrecondition]
  by_cases h2 : classSettings.ThisThreadOnly ≠ TRUE
  · simp [Program.ctor, h1, h2, Error.isPrecondition]
  by_cases h3 : windowSettings.LaunchHidden = 0
  · simp [Program.ctor, h1, h2, h3, Error.isPrecondition]
  by_cases h4 : w.lstrcmp windowSettings.ClassName classSettings.Name ≠ 0
  · simp [Program.ctor, h1, h2, h3, h4, Error.isPrecondition]
  simp only [Program.ctor, if_neg h1, if_neg h2, if_neg h3, if_neg h4]
  cases hl : programSettings.DontLogPreformace <;> cases hwin : env.window with
  | none => simp [h1, h2, h3, h4]
  | some window =>
    cases hr : programSettings.DontResizeBuffer with
    | true => simp [h1, h2, h3, h4, hr]
    | false =>
      cases hg : env.GetWindowRect window.handle with
      | error code => simp [h1, h2, h3, h4, hr, hg, Error.isPrecondition]
      | ok r => simp [h1, h2, h3, h4, hr, hg]

/-! ## The interleaved system -/

theorem step_trans (w : Win32) (a : Action) (s s1 : Sys) (h : step w a s = some s1) :
    Trans w a s s1 := by
  obtain ⟨p, o, t, tr⟩ := s
  cases a <;> simp only [step, ownerStep, wtStep, deliverStep] at h
  · cases o <;> simp only [reduceCtorEq] at h
    split at h <;> (injection h with h; subst h)
    · exact .runRaises _ _ _ (by assumption)
    · exact .runEnters _ _ _ (by rename_i hx; simpa using hx)
  · cases o <;> simp only [reduceCtorEq] at h
    injection h with h; subst h
    exact .dtor _ _ _
  · cases o <;> simp only [reduceCtorEq] at h
    · injection h with h; subst h; exact .setRunning _ _ _
    · split at h <;> (injection h with h; subst h)
      · exact .loopEnter _ _ _ (by assumption)
      · exact .loopExit _ _ _ (by assumption)
    · split at h <;> (injection h with h; subst h)
      · exact .resizeSeen _ _ _ (by assumption)
      · exact .resizeNotSeen _ _ _ (by rename_i hx; simpa using hx)
    · injection h with h; subst h; exact .callResize _ _ _
    · injection h with h; subst h; exact .clearResize _ _ _
    · injection h with h; subst h; exact .beginDraw _ _ _
    · split at h <;> (injection h with h; subst h)
      · exact .updateCalled _ _ _ _ (by assumption)
      · exact .updateSkipped _ _ _ (by assumption)
    · injection h with h; subst h; exact .endDraw _ _ _
    · split at h <;> (injection h with h; subst h)
      · exact .tickCalled _ _ _ (by assumption)
      · exact .tickSkipped _ _ _ (by rename_i hx; simpa using hx)
    · injection h with h; subst h; exact .deleteRenderer _ _ _
    · split at h <;> (injection h with h; subst h)
      · exact .deleteProfiler _ _ _ (by assumption)
      · exact .keepProfiler _ _ _ (by rename_i hx; simpa using hx)
  · split at h
    · injection h with h; subst h; exact .raise _ _ _ _ (by assumption)
    · cases h
  · cases t <;> simp only [reduceCtorEq] at h
    · split at h <;> (injection h with h; subst h)
      · exact .waitRunningPoll _ _ _ (by assumption)
      · exact .waitRunningDone _ _ _ (by rename_i hx; simpa using hx)
    · injection h with h; subst h; exact .writeSize _ _ _ _
    · injection h with h; subst h; exact .setFlag _ _ _ _
    · split at h <;> (injection h with h; subst h)
      · exact .spinPoll _ _ _ _ (by assumption)
      · exact .spinDone _ _ _ _ (by rename_i hx; simpa using hx)
    · injection h with h; subst h; exact .route _ _ _ _
    · injection h with h; subst h; exact .writeClosed _ _ _
    · split at h <;> (injection h with h; subst h)
      · exact .waitDestroyedPoll _ _ _ (by assumption)
      · exact .waitDestroyedDone _ _ _ (by rename_i hx; simpa using hx)
    · injection h with h; subst h; exact .deleteWindow _ _ _
  · cases t <;> simp only [reduceCtorEq] at h
    split at h
    · injection h with h; subst h; exact .swallowClose _ _ _ _ (by assumption)
    · split at h <;> (injection h with h; subst h)
      · exact .startResize _ _ _ _ (by assumption) (by assumption)
      · exact .toRoute _ _ _ _ (by assumption) (by assumption)
  · cases t <;> simp only [reduceCtorEq] at h
    injection h with h; subst h
    exact .pumpReturns _ _ _

theorem exec_invariant (w : Win32) (ok : Action → Prop) (Inv : Sys → Prop)
    (hstep : ∀ a s s1, ok a → Inv s → step w a s = some s1 → Inv s1) :
    ∀ (acts : List Action) (s s1 : Sys), (∀ a ∈ acts, ok a) → Inv s →
      exec w acts s = some s1 → Inv s1 := by
  intro acts
  induction acts with
  | nil =>
    intro s s1 _ hs h
    simp only [exec] at h
    injection h with h
    exact h ▸ hs
  | cons a rest ih =>
    intro s s1 hok hs h
    simp only [exec] at h
    cases hst : step w a s with
    | none => rw [hst] at h; cases h
    | some s2 =>
      rw [hst] at h
      exact ih s2 s1 (fun b hb => hok b (List.mem_cons_of_mem a hb))
        (hstep a s s2 (hok a (List.mem_cons_self a rest)) hs hst) h

theorem State.rank_le_three (x : State) : x.rank ≤ 3 := by
  cases x <;> decide

theorem monoInv_step (w : Win32) (a : Action) (s s1 : Sys) (ha : a ≠ Action.raise)
    (hinv : monoInv s) (h : step w a s = some s1) :
    monoInv s1 ∧ s.program._state.rank ≤ s1.program._state.rank := by
  have ht := step_trans w a s s1 h
  have r0 : State.Created.rank = 0 := rfl
  have r1 : State.Running.rank = 1 := rfl
  have r2 : State.Closed.rank = 2 := rfl
  have r3 : State.Destroyed.rank = 3 := rfl
  cases ht <;> clear h
  all_goals
    try simp_all [monoInv, OwnerPc.inLoop, OwnerPc.inDtor, WtPc.pumping, WtPc.closing,
      State.rank_le_three]
  all_goals
    rename WtPc => t
    cases t <;> simp_all

theorem monoInv_init (p : Program) (hp : p._state = State.Created) : monoInv (Sys.init p) := by
  simp [monoInv, Sys.init, hp, WtPc.pumping, WtPc.closing]

/-- C2, as stated, fails: when the update callback raises out of `Run` (which has no handler)
while the window thread is in its pump, and the owner then destroys the Program, the state
is Destroyed when the pump returns, and the window thread's write of line 106 takes it back
to Closed. -/
theorem C2_regress_counterexample :
    (exec demoWin32 raiseSchedule (Sys.init callbackProgram)).map
        (fun s => (s.program._state, s.owner, s.wt, s.trace))
      = some (State.Destroyed, OwnerPc.deleteRenderer, WtPc.writeClosed,
          [Event.BeginDraw, Event.raised Error.collaborator])
    ∧ (exec demoWin32 (raiseSchedule ++ [Action.wt]) (Sys.init callbackProgram)).map
        (fun s => (s.program._state, s.owner, s.wt))
      = some (State.Closed, OwnerPc.deleteRenderer, WtPc.waitDestroyed)
    ∧ ¬ State.Destroyed.rank ≤ State.Closed.rank :=
  ⟨rfl, rfl, by decide⟩

/-- C2, amended. On every run in which no error leaves the loop of `Run` (so that the owner
reaches the destructor only before calling `Run` or after the loop's own exit test), every
step of the interleaved system takes the state to an equal or later value in the order
Created, Running, Closed, Destroyed. -/
theorem C2_state_monotone (w : Win32) (p : Program) (acts : List Action) (a : Action)
    (s s1 : Sys) (hp : p._state = State.Created) (hacts : ∀ b ∈ acts, b ≠ Action.raise)
    (ha : a ≠ Action.raise) (hexec : exec w acts (Sys.init p) = some s)
    (hstep : step w a s = some s1) :
    s.program._state.rank ≤ s1.program._state.rank := by
  have hinv : monoInv s :=
    exec_invariant w (fun b => b ≠ Action.raise) monoInv
      (fun b x y hb hx hxy => (monoInv_step w b x y hb hx hxy).1)
      acts (Sys.init p) s hacts (monoInv_init p hp) hexec
  exact (monoInv_step w a s s1 ha hinv hstep).2

theorem C2_state_monotone_witness :
    (⟨demoProgram, OwnerPc.setRunning, WtPc.waitRunning, []⟩ : Sys).program._state.rank
      ≤ (⟨runningProgram, OwnerPc.loopTest, WtPc.waitRunning, []⟩ : Sys).program._state.rank :=
  C2_state_monotone demoWin32 demoProgram [Action.callRun] Action.owner _ _ rfl
    (by decide) (by decide) rfl rfl

theorem inFrame_append (tr : List Event) (e : Event) :
    inFrame (tr ++ [e]) = match e with
      | Event.BeginDraw => true
      | Event.EndDraw => false
      | _ => inFrame tr := by
  simp [inFrame, List.foldl_append]

theorem split_last {α : Type} (tr pre post : List α) (e x : α)
    (h : tr ++ [e] = pre ++ x :: post) :
    (post = [] ∧ tr = pre ∧ e = x) ∨ ∃ rest, post = rest ++ [e] ∧ tr = pre ++ x :: rest := by
  rcases List.eq_nil_or_concat post with hp | ⟨rest, y, hp⟩
  · subst hp
    left
    have h2 : tr ++ [e] = pre ++ [x] := h
    have := List.append_inj' h2 rfl
    simp_all
  · subst hp
    right
    have h2 : tr ++ [e] = (pre ++ x :: rest) ++ [y] := by simpa using h
    have := List.append_inj' h2 rfl
    refine ⟨rest, ?_, this.1⟩
    have h3 := this.2
    simp at h3
    simp [h3]

theorem resizesOutsideFrames_append (tr : List Event) (e : Event) :
    resizesOutsideFrames (tr ++ [e]) ↔
      resizesOutsideFrames tr ∧ ∀ size, e = Event.Resize size → inFrame tr = false := by
  constructor
  · intro h
    refine ⟨?_, ?_⟩
    · intro pre size post hx
      exact h pre size (post ++ [e]) (by simp [hx])
    · intro size he
      exact h tr size [] (by simp [he])
  · rintro ⟨h1, h2⟩ pre size post hx
    rcases split_last tr pre post e _ hx with ⟨-, htr, he⟩ | ⟨rest, -, htr⟩
    · rw [← htr]
      exact h2 size he
    · exact h1 pre size rest htr

theorem frameInv_step (w : Win32) (a : Action) (s s1 : Sys)
    (hinv : frameInv s) (h : step w a s = some s1) : frameInv s1 := by
  have ht := step_trans w a s s1 h
  cases ht <;> clear h <;>
    (try simp_all [frameInv, OwnerPc.inLoop, OwnerPc.inDtor, inFrame_append,
      resizesOutsideFrames_append])
  case raise p o t tr hr =>
    cases o <;> simp_all [ownerCanRaise]
  all_goals tauto

theorem LOWORD_eq_mod (l : LPARAM) : LOWORD l = (l % 65536).toNat := by
  unfold LOWORD toDWORD_PTR
  have h : (0xffff : Nat) = 2 ^ 16 - 1 := by norm_num
  rw [h, Nat.and_pow_two_sub_one_eq_mod]
  omega

theorem HIWORD_eq_div_mod (l : LPARAM) : HIWORD l = (l / 65536 % 65536).toNat := by
  unfold HIWORD toDWORD_PTR
  have h : (0xffff : Nat) = 2 ^ 16 - 1 := by norm_num
  rw [h, Nat.and_pow_two_sub_one_eq_mod, Nat.shiftRight_eq_div_pow]
  omega

theorem handoff_append (tr : List Event) (e : Event) :
    handoff (tr ++ [e]) = handoffScan (handoff tr) e := by
  simp [handoff, List.foldl_append]

theorem handoffScan_wrote (l : LPARAM) (size : D2D1_SIZE_U) :
    handoffScan (some none) (Event.wroteNewSize l size) = some (some size) := rfl

theorem handoffScan_resize (size : D2D1_SIZE_U) :
    handoffScan (some (some size)) (Event.Resize size) = some none := by
  simp [handoffScan]

theorem handoffScan_neutral (st : Option (Option D2D1_SIZE_U)) :
    handoffScan st Event.BeginDraw = st
    ∧ handoffScan st Event.EndDraw = st
    ∧ (∀ r, handoffScan st (Event.UpdateCallback r) = st)
    ∧ (∀ pr, handoffScan st (Event.Tick pr) = st)
    ∧ handoffScan st Event.deleteRenderer = st
    ∧ handoffScan st Event.deleteProfiler = st
    ∧ handoffScan st Event.deleteWindow = st
    ∧ (∀ m o, handoffScan st (Event.wndProcReturned m o) = st)
    ∧ (∀ e, handoffScan st (Event.raised e) = st) := by
  cases st with
  | none => simp [handoffScan]
  | some x => cases x <;> simp [handoffScan]

theorem handoffInv_step (w : Win32) (a : Action) (s s1 : Sys)
    (hinv : handoffInv s) (h : step w a s = some s1) : handoffInv s1 := by
  have ht := step_trans w a s s1 h
  clear h
  cases ht <;> rename Program => p <;> cases hf : p._resizeRequested <;>
    (try simp_all [handoffInv, WtPc.isSetFlag, handoff_append, handoffScan_wrote,
      handoffScan_resize, handoffScan_neutral])
  case clearResize.true t tr =>
    obtain ⟨⟨m, rfl⟩, -⟩ := hinv
    rfl
  case raise.true o t tr hr =>
    intro ho
    subst ho
    simp [ownerCanRaise] at hr

theorem writesFromMessage_step (w : Win32) (a : Action) (s s1 : Sys)
    (hinv : writesFromMessage s.trace) (h : step w a s = some s1) :
    writesFromMessage s1.trace := by
  have ht := step_trans w a s s1 h
  clear h
  cases ht <;> first
    | exact hinv
    | (intro l size hmem
       simp only [List.mem_append, List.mem_singleton, reduceCtorEq, or_false] at hmem
       first
         | exact hinv l size hmem
         | (rcases hmem with hmem | hmem
            · exact hinv l size hmem
            · injection hmem with h1 h2
              rw [h2, h1]))

theorem handoffInv_init (p : Program) (hp : p._resizeRequested = false) :
    handoffInv (Sys.init p) := by
  simp [handoffInv, Sys.init, hp, handoff, WtPc.isSetFlag]

theorem resizeDisabledInv_step (w : Win32) (size0 : D2D1_SIZE_U) (a : Action) (s s1 : Sys)
    (hinv : resizeDisabledInv size0 s) (h : step w a s = some s1) :
    resizeDisabledInv size0 s1 := by
  have ht := step_trans w a s s1 h
  clear h
  cases ht <;> simp_all [resizeDisabledInv]

theorem configInv_step (w : Win32) (p0 : Program) (a : Action) (s s1 : Sys)
    (hinv : configInv p0 s) (h : step w a s = some s1) : configInv p0 s1 := by
  have ht := step_trans w a s s1 h
  clear h
  cases ht <;> exact hinv

theorem tickInv_step (w : Win32) (p0 : Program) (a : Action) (s s1 : Sys)
    (hinv : tickInv p0 s) (h : step w a s = some s1) : tickInv p0 s1 := by
  refine ⟨configInv_step w p0 a s s1 hinv.1 h, ?_⟩
  obtain ⟨hcfg, hinv⟩ := hinv
  have ht := step_trans w a s s1 h
  clear h
  cases ht <;> first
    | exact hinv
    | (intro pr hmem
       simp only [List.mem_append, List.mem_singleton, reduceCtorEq, or_false] at hmem
       first
         | exact hinv pr hmem
         | (rcases hmem with hmem | hmem
            · exact hinv pr hmem
            · injection hmem with h1
              subst h1
              refine ⟨?_, hcfg.2⟩
              rw [← hcfg.1]
              assumption))

theorem frameInv_init (p : Program) : frameInv (Sys.init p) := by
  refine ⟨?_, ?_, ?_⟩
  · intro pre size post h
    simp [Sys.init] at h
  · simp [Sys.init, OwnerPc.inLoop]
  · simp [Sys.init, inFrame]

/-- C5. In every reachable state of the interleaved system, whatever the schedule and the
messages delivered, every `Resize` in the trace is preceded by a trace that leaves no frame
open: it comes before the first `BeginDraw` or after an `EndDraw` and before the next
`BeginDraw`. -/
theorem C5_resize_never_mid_frame (w : Win32) (p : Program) (acts : List Action) (s : Sys)
    (hexec : exec w acts (Sys.init p) = some s) :
    ∀ pre size post, s.trace = pre ++ Event.Resize size :: post → inFrame pre = false :=
  (exec_invariant w (fun _ => True) frameInv
    (fun a x y _ hx hxy => frameInv_step w a x y hx hxy)
    acts (Sys.init p) s (fun _ _ => trivial) (frameInv_init p) hexec).1

theorem C5_resize_never_mid_frame_witness :
    exec demoWin32 resizeSchedule (Sys.init demoProgram) = some resizedFrame
    ∧ ∀ pre size post, resizedFrame.trace = pre ++ Event.Resize size :: post →
        inFrame pre = false :=
  ⟨rfl, C5_resize_never_mid_frame demoWin32 demoProgram resizeSchedule resizedFrame rfl⟩

theorem handoffScan_none (tr : List Event) : tr.foldl handoffScan none = none := by
  induction tr with
  | nil => rfl
  | cons e rest ih => simpa [List.foldl_cons, handoffScan] using ih

theorem handoff_between (mid : List Event) :
    ∀ (st st1 : Option D2D1_SIZE_U), (∀ l size, Event.wroteNewSize l size ∉ mid) →
      mid.foldl handoffScan (some st) = some st1 →
      (st1 = st ∧ resizeCalls mid = [])
      ∨ (∃ size, st = some size ∧ st1 = none ∧ resizeCalls mid = [size]) := by
  induction mid with
  | nil =>
    intro st st1 _ h
    simp only [List.foldl_nil] at h
    injection h with h
    exact Or.inl ⟨h.symm, rfl⟩
  | cons e rest ih =>
    intro st st1 hw h
    have hw2 : ∀ l size, Event.wroteNewSize l size ∉ rest :=
      fun l size hm => hw l size (List.mem_cons_of_mem e hm)
    simp only [List.foldl_cons] at h
    cases e with
    | wroteNewSize l size => exact absurd (List.mem_cons_self _ _) (hw l size)
    | Resize size =>
      cases st with
      | none =>
        simp only [handoffScan] at h
        rw [handoffScan_none] at h
        cases h
      | some pending =>
        by_cases hp : pending = size
        · subst hp
          rw [handoffScan_resize] at h
          rcases ih none st1 hw2 h with ⟨h1, h2⟩ | ⟨sz, h1, -⟩
          · exact Or.inr ⟨pending, rfl, h1, by simp [resizeCalls] at h2 ⊢; exact h2⟩
          · cases h1
        · simp only [handoffScan, if_neg hp] at h
          rw [handoffScan_none] at h
          cases h
    | _ =>
      simp only [handoffScan_neutral] at h
      rcases ih st st1 hw2 h with ⟨h1, h2⟩ | ⟨sz, h1, h2, h3⟩
      · exact Or.inl ⟨h1, by simpa [resizeCalls] using h2⟩
      · exact Or.inr ⟨sz, h1, h2, by simpa [resizeCalls] using h3⟩

/-- Between two consecutive writes of the pending size lies exactly one `Resize`, called with
the size written first. -/
theorem handoff_consecutive (tr pre mid post : List Event) (l1 l2 : LPARAM)
    (size1 size2 : D2D1_SIZE_U) (pending : Option D2D1_SIZE_U)
    (h : handoff tr = some pending)
    (htr : tr = pre ++ Event.wroteNewSize l1 size1 :: (mid ++ Event.wroteNewSize l2 size2 :: post))
    (hmid : ∀ l size, Event.wroteNewSize l size ∉ mid) :
    resizeCalls mid = [size1] := by
  subst htr
  simp only [handoff, List.foldl_append, List.foldl_cons] at h
  cases hx : pre.foldl handoffScan (some none) with
  | none =>
    rw [hx] at h
    simp only [handoffScan, handoffScan_none] at h
    cases h
  | some x =>
    rw [hx] at h
    cases x with
    | some y =>
      simp only [handoffScan, handoffScan_none] at h
      cases h
    | none =>
      rw [handoffScan_wrote] at h
      cases hm : mid.foldl handoffScan (some (some size1)) with
      | none =>
        rw [hm] at h
        simp only [handoffScan, handoffScan_none] at h
        cases h
      | some st1 =>
        rw [hm] at h
        rcases handoff_between mid (some size1) st1 hmid hm with ⟨h1, -⟩ | ⟨sz, h1, -, h3⟩
        · subst h1
          simp only [handoffScan, handoffScan_none] at h
          cases h
        · injection h1 with h1
          subst h1
          exact h3

/-- C6. In every reachable state of the interleaved system started with the flag clear: the
window thread is about to write `_newSize` only while `_resizeRequested` is clear; the
writes of `_newSize` and the calls of `Resize` alternate, each `Resize` receiving exactly the
size written last, so that between two consecutive writes lies exactly one `Resize`, called
with the size written first; and every size written is (low 16 bits of lParam, next 16 bits
of lParam). -/
theorem C6_pending_resize_handoff (w : Win32) (p : Program) (acts : List Action) (s : Sys)
    (hp : p._resizeRequested = false) (hexec : exec w acts (Sys.init p) = some s) :
    (∀ m, s.wt = WtPc.writeSize m → s.program._resizeRequested = false)
    ∧ (∃ pending, handoff s.trace = some pending)
    ∧ (∀ pre mid post l1 l2 size1 size2,
        s.trace = pre ++ Event.wroteNewSize l1 size1
          :: (mid ++ Event.wroteNewSize l2 size2 :: post) →
        (∀ l size, Event.wroteNewSize l size ∉ mid) → resizeCalls mid = [size1])
    ∧ (∀ l size, Event.wroteNewSize l size ∈ s.trace →
        size = SizeU (LOWORD l) (HIWORD l)
        ∧ size.width = (l % 65536).toNat ∧ size.height = (l / 65536 % 65536).toNat) := by
  have hinv : handoffInv s :=
    exec_invariant w (fun _ => True) handoffInv
      (fun a x y _ hx hxy => handoffInv_step w a x y hx hxy)
      acts (Sys.init p) s (fun _ _ => trivial) (handoffInv_init p hp) hexec
  have hwr : writesFromMessage s.trace :=
    exec_invariant w (fun _ => True) (fun x => writesFromMessage x.trace)
      (fun a x y _ hx hxy => writesFromMessage_step w a x y hx hxy)
      acts (Sys.init p) s (fun _ _ => trivial)
      (by intro l size h; simp [Sys.init] at h) hexec
  have hsome : ∃ pending, handoff s.trace = some pending := by
    cases hf : s.program._resizeRequested with
    | false => exact ⟨_, (hinv.2 hf).2.2⟩
    | true => exact ⟨_, (hinv.1 hf).2⟩
  refine ⟨?_, hsome, ?_, ?_⟩
  · intro m hm
    cases hf : s.program._resizeRequested with
    | false => rfl
    | true =>
      obtain ⟨m2, hm2⟩ := (hinv.1 hf).1
      rw [hm] at hm2
      cases hm2
  · intro pre mid post l1 l2 size1 size2 htr hmid
    obtain ⟨pending, hp2⟩ := hsome
    exact handoff_consecutive s.trace pre mid post l1 l2 size1 size2 pending hp2 htr hmid
  · intro l size hmem
    have hsz := hwr l size hmem
    subst hsz
    exact ⟨rfl, LOWORD_eq_mod l, HIWORD_eq_div_mod l⟩

theorem C6_pending_resize_handoff_witness :
    exec demoWin32 resizeSchedule (Sys.init demoProgram) = some resizedFrame
    ∧ (∀ m, resizedFrame.wt = WtPc.writeSize m → resizedFrame.program._resizeRequested = false)
    ∧ (∃ pending, handoff resizedFrame.trace = some pending)
    ∧ (∀ pre mid post l1 l2 size1 size2,
        resizedFrame.trace = pre ++ Event.wroteNewSize l1 size1
          :: (mid ++ Event.wroteNewSize l2 size2 :: post) →
        (∀ l size, Event.wroteNewSize l size ∉ mid) → resizeCalls mid = [size1])
    ∧ (∀ l size, Event.wroteNewSize l size ∈ resizedFrame.trace →
        size = SizeU (LOWORD l) (HIWORD l)
        ∧ size.width = (l % 65536).toNat ∧ size.height = (l / 65536 % 65536).toNat) :=
  ⟨rfl, C6_pending_resize_handoff demoWin32 demoProgram resizeSchedule resizedFrame rfl rfl⟩

theorem resizeDisabledInv_init (p : Program)
    (hd : p._programSettings.DontResizeBuffer = true) (hp : p._resizeRequested = false) :
    resizeDisabledInv p._newSize (Sys.init p) := by
  simp [resizeDisabledInv, Sys.init, hd, hp]

/-- C8. With `DontResizeBuffer` set: `CustomWndProc` returns for every message (size-change
included) and every state with the Program exactly as it was; in the interleaved system
started with the flag clear, `_newSize` and the flag never change and the trace contains no
`Resize` and no write of `_newSize`; and the constructor performs no `Resize`. -/
theorem C8_resize_disabled (w : Win32) (p : Program)
    (hd : p._programSettings.DontResizeBuffer = true) :
    (∀ (owner : Nat → List OwnerWrite) (fuel : Nat) (m : Msg),
        ∃ out, CustomWndProc w owner fuel (some p) m = some (out, some p))
    ∧ (p._resizeRequested = false → ∀ (acts : List Action) (s : Sys),
        exec w acts (Sys.init p) = some s →
          s.program._newSize = p._newSize ∧ s.program._resizeRequested = false
          ∧ (∀ size, Event.Resize size ∉ s.trace)
          ∧ (∀ l size, Event.wroteNewSize l size ∉ s.trace))
    ∧ (∀ (env : CtorEnv) (programSettings : ProgramSettings) (classSettings : ClassSettings)
        (windowSettings : WindowSettings) (rendererSettings : RendererSettings),
        programSettings.DontResizeBuffer = true →
        ∀ size, CtorEvent.Resize size ∉
          (Program.ctor w env programSettings classSettings windowSettings
            rendererSettings).1) := by
  refine ⟨?_, ?_, ?_⟩
  · intro owner fuel m
    have hs : ¬(m.uMsg = WM_SIZE ∧ p._programSettings.DontResizeBuffer = false) := by
      simp [hd]
    simp only [CustomWndProc, if_neg hs]
    split
    · exact ⟨_, rfl⟩
    · exact ⟨_, rfl⟩
  · intro hp acts s hexec
    have hinv : resizeDisabledInv p._newSize s :=
      exec_invariant w (fun _ => True) (resizeDisabledInv p._newSize)
        (fun a x y _ hx hxy => resizeDisabledInv_step w p._newSize a x y hx hxy)
        acts (Sys.init p) s (fun _ _ => trivial) (resizeDisabledInv_init p hd hp) hexec
    exact ⟨hinv.2.2.1, hinv.2.1, hinv.2.2.2.1, hinv.2.2.2.2.1⟩
  · intro env ps cs ws rs hps size
    unfold Program.ctor
    split
    · simp
    split
    · simp
    split
    · simp
    split
    · simp
    cases hl : ps.DontLogPreformace <;> cases hwin : env.window <;> simp [hps, hl, hwin]

theorem C8_resize_disabled_witness :
    (∀ (owner : Nat → List OwnerWrite) (fuel : Nat) (m : Msg),
        ∃ out, CustomWndProc demoWin32 owner fuel (some fixedBufferProgram) m
          = some (out, some fixedBufferProgram))
    ∧ (fixedBufferProgram._resizeRequested = false → ∀ (acts : List Action) (s : Sys),
        exec demoWin32 acts (Sys.init fixedBufferProgram) = some s →
          s.program._newSize = fixedBufferProgram._newSize
          ∧ s.program._resizeRequested = false
          ∧ (∀ size, Event.Resize size ∉ s.trace)
          ∧ (∀ l size, Event.wroteNewSize l size ∉ s.trace))
    ∧ (∀ (env : CtorEnv) (programSettings : ProgramSettings) (classSettings : ClassSettings)
        (windowSettings : WindowSettings) (rendererSettings : RendererSettings),
        programSettings.DontResizeBuffer = true →
        ∀ size, CtorEvent.Resize size ∉
          (Program.ctor demoWin32 env programSettings classSettings windowSettings
            rendererSettings).1) :=
  C8_resize_disabled demoWin32 fixedBufferProgram rfl

theorem iteration_eq (p : Program) :
    Run.iteration p
      = ({ p with _resizeRequested := false },
          (if p._resizeRequested = true then [Event.Resize p._newSize] else [])
            ++ [Event.BeginDraw]
            ++ (match p._programSettings.UpdateCallback with
                | some routine => [Event.UpdateCallback routine]
                | none => [])
            ++ [Event.EndDraw]
            ++ (if p._programSettings.DontLogPreformace = true then []
                else [Event.Tick p._profiler])) := by
  obtain ⟨st, sz, fl, pr, rn, wn, ⟨cb, wcb, ig, dr, dl, iv⟩, cs, ws, rs⟩ := p
  cases fl <;> cases cb <;> cases dl <;> simp [Run.iteration]

theorem iteration_steps (w : Win32) (p : Program) (t : WtPc) (tr : List Event) :
    ∃ n, exec w (List.replicate n Action.owner) ⟨p, OwnerPc.resizeTest, t, tr⟩
      = some ⟨(Run.iteration p).1, OwnerPc.loopTest, t, tr ++ (Run.iteration p).2⟩ := by
  obtain ⟨st, sz, fl, pr, rn, wn, ⟨cb, wcb, ig, dr, dl, iv⟩, cs, ws, rs⟩ := p
  cases fl
  · refine ⟨5, ?_⟩
    cases cb <;> cases dl <;>
      simp [List.replicate, exec, step, ownerStep, Run.iteration]
  · refine ⟨7, ?_⟩
    cases cb <;> cases dl <;>
      simp [List.replicate, exec, step, ownerStep, Run.iteration]

theorem tickInv_init (p : Program) : tickInv p (Sys.init p) := by
  refine ⟨⟨rfl, rfl⟩, ?_⟩
  intro pr h
  simp [Sys.init] at h

theorem ctor_built (w : Win32) (env : CtorEnv) (ps : ProgramSettings) (cs : ClassSettings)
    (ws : WindowSettings) (rs : RendererSettings) (evs : List CtorEvent) (p : Program)
    (h : Program.ctor w env ps cs ws rs = (evs, .built p)) :
    p._programSettings = ps ∧ p._state = State.Created ∧ p._resizeRequested = false
    ∧ p._newSize = SizeU 0 0
    ∧ (ps.DontLogPreformace = false →
        p._profiler = some ⟨ps.PreformanceLogInterval⟩
        ∧ CtorEvent.newProfiler ps.PreformanceLogInterval ∈ evs)
    ∧ (ps.DontLogPreformace = true →
        p._profiler = none ∧ ∀ interval, CtorEvent.newProfiler interval ∉ evs) := by
  unfold Program.ctor at h
  split at h
  · simp at h
  split at h
  · simp at h
  split at h
  · simp at h
  split at h
  · simp at h
  cases hl : ps.DontLogPreformace <;> cases hwin : env.window <;>
    cases hr : ps.DontResizeBuffer <;> simp [hl, hwin, hr] at h
  all_goals (try (split at h <;> simp at h))
  all_goals (obtain ⟨h1, h2⟩ := h; subst h1 h2; simp [hl])

theorem applyWtWrites_config (ws : List WtWrite) (p : Program) :
    (applyWtWrites ws p)._programSettings = p._programSettings
    ∧ (applyWtWrites ws p)._profiler = p._profiler := by
  induction ws generalizing p with
  | nil => exact ⟨rfl, rfl⟩
  | cons x xs ih =>
    have h := ih (x.apply p)
    have hx : (x.apply p)._programSettings = p._programSettings
        ∧ (x.apply p)._profiler = p._profiler := by
      cases x <;> exact ⟨rfl, rfl⟩
    exact ⟨h.1.trans hx.1, h.2.trans hx.2⟩

theorem iteration_config (p : Program) :
    (Run.iteration p).1._programSettings = p._programSettings
    ∧ (Run.iteration p).1._profiler = p._profiler := by
  rw [iteration_eq p]
  exact ⟨rfl, rfl⟩

theorem loop_calls (windowThread : Nat → List WtWrite) :
    ∀ (fuel k : Nat) (p : Program) (calls : List Event),
      (Run.loop windowThread fuel k p calls).calls
        = calls ++ callsOfPasses (Run.passes windowThread fuel k p) := by
  intro fuel
  induction fuel with
  | zero => intro k p calls; simp [Run.loop, Run.passes, callsOfPasses, RunResult.calls]
  | succ f ih =>
    intro k p calls
    unfold Run.loop Run.passes
    simp only
    split
    · rw [ih]
      simp [callsOfPasses, List.append_assoc]
    · simp [callsOfPasses, RunResult.calls]

theorem passes_config (windowThread : Nat → List WtWrite) :
    ∀ (fuel k : Nat) (p q : Program), q ∈ Run.passes windowThread fuel k p →
      q._state = State.Running ∧ q._programSettings = p._programSettings
        ∧ q._profiler = p._profiler := by
  intro fuel
  induction fuel with
  | zero => intro k p q h; simp [Run.passes] at h
  | succ f ih =>
    intro k p q h
    unfold Run.passes at h
    simp only at h
    split at h
    · rename_i hrun
      have hw := applyWtWrites_config (windowThread k) p
      rcases List.mem_cons.mp h with h | h
      · subst h
        exact ⟨hrun, hw.1, hw.2⟩
      · obtain ⟨h1, h2, h3⟩ := ih _ _ _ h
        have hi := iteration_config (applyWtWrites (windowThread k) p)
        exact ⟨h1, h2.trans (hi.1.trans hw.1), h3.trans (hi.2.trans hw.2)⟩
    · simp at h

theorem tick_of_passes (p0 : Program) :
    ∀ (ps : List Program),
      (∀ q ∈ ps, q._programSettings = p0._programSettings ∧ q._profiler = p0._profiler) →
      ∀ pr, Event.Tick pr ∈ callsOfPasses ps →
        p0._programSettings.DontLogPreformace = false ∧ pr = p0._profiler := by
  intro ps
  induction ps with
  | nil => intro _ pr h; simp [callsOfPasses] at h
  | cons q rest ih =>
    intro hq pr h
    simp only [callsOfPasses, List.mem_append] at h
    rcases h with h | h
    · have hq0 := hq q (List.mem_cons_self q rest)
      rw [iteration_eq q] at h
      simp only [List.mem_append, List.mem_singleton, reduceCtorEq, or_false] at h
      rcases h with h | h
      · rcases h with h | h
        · split at h <;> simp at h
        · split at h <;> simp at h
      · split at h
        · simp at h
        · rename_i hl
          simp at h
          subst h
          exact ⟨by rw [← hq0.1]; simpa using hl, hq0.2⟩
    · exact ih (fun x hx => hq x (List.mem_cons_of_mem q hx)) pr h

theorem run_calls (windowThread : Nat → List WtWrite) (fuel : Nat) (p : Program)
    (hp : p._state = State.Created) :
    (Run windowThread fuel p).calls
        = callsOfPasses (Run.passes windowThread fuel 0 { p with _state := State.Running })
    ∧ (∀ q ∈ Run.passes windowThread fuel 0 { p with _state := State.Running },
        q._state = State.Running ∧ q._programSettings = p._programSettings
          ∧ q._profiler = p._profiler)
    ∧ (∀ pr, Event.Tick pr ∈ (Run windowThread fuel p).calls →
        p._programSettings.DontLogPreformace = false ∧ pr = p._profiler) := by
  have h1 : (Run windowThread fuel p).calls
      = callsOfPasses (Run.passes windowThread fuel 0 { p with _state := State.Running }) := by
    unfold Run
    rw [if_neg (by simp [hp])]
    simp only
    rw [loop_calls]
    rfl
  have h2 : ∀ q ∈ Run.passes windowThread fuel 0 { p with _state := State.Running },
      q._state = State.Running ∧ q._programSettings = p._programSettings
        ∧ q._profiler = p._profiler :=
    fun q hq => passes_config windowThread fuel 0 { p with _state := State.Running } q hq
  refine ⟨h1, h2, ?_⟩
  intro pr hpr
  rw [h1] at hpr
  exact tick_of_passes p _ (fun q hq => (h2 q hq).2) pr hpr

/-- C10, as stated, fails for a pass that an error leaves: `Run` has no handler, so when the
update callback raises at line 144 the pass has issued `BeginDraw` only, and neither
`EndDraw` nor `Tick` follows, while the full list for that pass has four calls. -/
theorem C10_pass_left_by_error_counterexample :
    (exec demoWin32 (passLeftSchedule.take 3) (Sys.init callbackProgram)).map
        (fun s => (s.program._state, s.owner, s.trace))
      = some (State.Running, OwnerPc.resizeTest, [])
    ∧ (exec demoWin32 passLeftSchedule (Sys.init callbackProgram)).map
        (fun s => (s.program._state, s.owner, s.trace))
      = some (State.Running, OwnerPc.idle, [Event.BeginDraw, Event.raised Error.collaborator])
    ∧ (Run.iteration { callbackProgram with _state := State.Running }).2
      = [Event.BeginDraw, Event.UpdateCallback 1, Event.EndDraw, Event.Tick (some ⟨60⟩)] :=
  ⟨rfl, rfl, rfl⟩

/-- C10, amended. One pass through the loop body of `Run` that no error leaves leaves the
Program with the flag clear and issues exactly: `Resize` of the pending size if and only if
the flag was set, `BeginDraw`, the update callback if and only if one is configured,
`EndDraw`, and `Tick` if and only if performance logging is not disabled; the owning
context's steps of the interleaved system from line 137 to line 136 make the same calls,
and the calls of `Run` as a whole are those of its passes, one after the other, each
entered with the state Running and the settings and the Profiler of the Program. Over
every run every `Tick` is made with performance logging enabled, on the Program's
`_profiler`; and for a Program the constructor built, that pointer is the Profiler the
constructor allocated, while with performance logging disabled the constructor allocates
none. -/
theorem C10_run_loop_iteration (w : Win32) (p : Program) :
    Run.iteration p
      = ({ p with _resizeRequested := false },
          (if p._resizeRequested = true then [Event.Resize p._newSize] else [])
            ++ [Event.BeginDraw]
            ++ (match p._programSettings.UpdateCallback with
                | some routine => [Event.UpdateCallback routine]
                | none => [])
            ++ [Event.EndDraw]
            ++ (if p._programSettings.DontLogPreformace = true then []
                else [Event.Tick p._profiler]))
    ∧ (∀ (t : WtPc) (tr : List Event),
        ∃ n, exec w (List.replicate n Action.owner) ⟨p, OwnerPc.resizeTest, t, tr⟩
          = some ⟨(Run.iteration p).1, OwnerPc.loopTest, t, tr ++ (Run.iteration p).2⟩)
    ∧ (∀ (acts : List Action) (s : Sys), exec w acts (Sys.init p) = some s →
        ∀ pr, Event.Tick pr ∈ s.trace →
          p._programSettings.DontLogPreformace = false ∧ pr = p._profiler)
    ∧ (∀ (env : CtorEnv) (ps : ProgramSettings) (cs : ClassSettings) (ws : WindowSettings)
        (rs : RendererSettings) (evs : List CtorEvent),
        Program.ctor w env ps cs ws rs = (evs, .built p) →
          p._programSettings = ps
          ∧ (ps.DontLogPreformace = false →
              p._profiler = some ⟨ps.PreformanceLogInterval⟩
              ∧ CtorEvent.newProfiler ps.PreformanceLogInterval ∈ evs)
          ∧ (ps.DontLogPreformace = true →
              p._profiler = none ∧ ∀ interval, CtorEvent.newProfiler interval ∉ evs))
    ∧ (∀ (windowThread : Nat → List WtWrite) (fuel : Nat), p._state = State.Created →
        (Run windowThread fuel p).calls
          = callsOfPasses (Run.passes windowThread fuel 0 { p with _state := State.Running })
        ∧ (∀ q ∈ Run.passes windowThread fuel 0 { p with _state := State.Running },
            q._state = State.Running ∧ q._programSettings = p._programSettings
              ∧ q._profiler = p._profiler)
        ∧ (∀ pr, Event.Tick pr ∈ (Run windowThread fuel p).calls →
            p._programSettings.DontLogPreformace = false ∧ pr = p._profiler)) := by
  refine ⟨iteration_eq p, iteration_steps w p, ?_, ?_, ?_⟩
  · intro acts s hexec
    exact (exec_invariant w (fun _ => True) (tickInv p)
      (fun a x y _ hx hxy => tickInv_step w p a x y hx hxy)
      acts (Sys.init p) s (fun _ _ => trivial) (tickInv_init p) hexec).2
  · intro env ps cs ws rs evs h
    have hb := ctor_built w env ps cs ws rs evs p h
    exact ⟨hb.1, hb.2.2.2.2.1, hb.2.2.2.2.2⟩
  · intro windowThread fuel hp
    exact run_calls windowThread fuel p hp

theorem C10_run_loop_iteration_witness :
    Run closesAfterTwo 5 demoProgram
      = .returned { demoProgram with _state := State.Closed }
          [Event.BeginDraw, Event.EndDraw, Event.Tick (some ⟨60⟩),
            Event.BeginDraw, Event.EndDraw, Event.Tick (some ⟨60⟩)]
    ∧ (Run closesAfterTwo 5 demoProgram).calls
        = callsOfPasses (Run.passes closesAfterTwo 5 0 runningProgram)
    ∧ Run.passes closesAfterTwo 5 0 runningProgram = [runningProgram, runningProgram] :=
  ⟨rfl, ((C10_run_loop_iteration demoWin32 demoProgram).2.2.2.2 closesAfterTwo 5 rfl).1, rfl⟩

end EZ
